import Mathlib

/-!
Shallow embedding of the schema-aware query-intelligence core of the
mcp-mysql server (src/mysql_mcp_server: query_intelligence.py,
query_validation.py, schema_knowledge.py), together with theorems that
settle the frozen claims about it.

Python strings are modelled as Lean `String` (a wrapper around
`List Char`); all Python string primitives used by the code
(`strip`, `rstrip`, `upper`, `lower`, `split`, `replace`, `in`,
`startswith`, `endswith`) are re-implemented below over `List Char`
with Python semantics (ASCII inputs).  Time is modelled as `Nat`
seconds.  Fallible Python code returns `Except`; the handful of
third-party / I/O behaviours (sqlparse tokenisation, the database
cursor, the Ollama drafting call) are oracle parameters.
-/

set_option maxRecDepth 20000

namespace MysqlMcp

/-! ## Python string primitives -/

/-- The characters stripped by Python `str.strip()` / `\s` of `re`
(ASCII whitespace: space, tab, newline, carriage return, vertical tab,
form feed). -/
def pyIsSpace (c : Char) : Bool :=
  c = ' ' || c = '\t' || c = '\n' || c = '\r' || c = Char.ofNat 11 || c = Char.ofNat 12

/-- Python `str.strip()` on the underlying character list. -/
def pyStripList (l : List Char) : List Char :=
  ((l.dropWhile pyIsSpace).reverse.dropWhile pyIsSpace).reverse

/-- Python `str.strip()`. -/
def pyStrip (s : String) : String := ⟨pyStripList s.data⟩

/-- Python `str.rstrip()` (trailing whitespace only). -/
def pyRstrip (s : String) : String := ⟨(s.data.reverse.dropWhile pyIsSpace).reverse⟩

/-- Python `str.rstrip(';')`: drop every trailing semicolon. -/
def pyRstripSemis (s : String) : String :=
  ⟨(s.data.reverse.dropWhile (fun c => c = ';')).reverse⟩

/-- Python `str.upper()` (ASCII). -/
def pyUpper (s : String) : String := ⟨s.data.map Char.toUpper⟩

/-- Python `str.lower()` (ASCII). -/
def pyLower (s : String) : String := ⟨s.data.map Char.toLower⟩

/-- Substring search over character lists: does `needle` occur
contiguously inside `hay`? -/
def containsSub (needle : List Char) : List Char → Bool
  | [] => needle.isEmpty
  | c :: cs => needle.isPrefixOf (c :: cs) || containsSub needle cs

/-- Python `needle in hay` for strings. -/
def strContains (hay needle : String) : Bool := containsSub needle.data hay.data

/-- Python `s.startswith(pre)`. -/
def pyStartsWith (s pre : String) : Bool := pre.data.isPrefixOf s.data

/-- Python `s.endswith(suf)`. -/
def pyEndsWith (s suf : String) : Bool := suf.data.reverse.isPrefixOf s.data.reverse

/-- Python `str.join` over a list of parts. -/
def joinWith (sep : String) : List String → String
  | [] => ""
  | [x] => x
  | x :: y :: rest => x ++ sep ++ joinWith sep (y :: rest)

/-- Auxiliary for `pySplitChar`: Python `s.split(c)` semantics
(`acc` holds the current field in order). -/
def pySplitCharAux (c : Char) : List Char → List Char → List String
  | acc, [] => [⟨acc⟩]
  | acc, x :: xs =>
    if x = c then ⟨acc⟩ :: pySplitCharAux c [] xs
    else pySplitCharAux c (acc ++ [x]) xs

/-- Python `s.split(c)` for a one-character separator (never returns `[]`;
the empty string splits to `[""]`). -/
def pySplitChar (c : Char) (s : String) : List String := pySplitCharAux c [] s.data

/-- Auxiliary for `strReplace` (fuel bounds the scan; `fuel = length`
always suffices because each step consumes at least one character). -/
def strReplaceAux (pat rep : List Char) : Nat → List Char → List Char
  | 0, l => l
  | _ + 1, [] => []
  | fuel + 1, c :: cs =>
    if pat.isPrefixOf (c :: cs) then
      rep ++ strReplaceAux pat rep fuel ((c :: cs).drop pat.length)
    else
      c :: strReplaceAux pat rep fuel cs

/-- Python `s.replace(pat, rep)` (all occurrences, left to right,
non-overlapping; `pat` nonempty in every use below). -/
def strReplace (s pat rep : String) : String :=
  ⟨strReplaceAux pat.data rep.data s.data.length s.data⟩

/-- First-occurrence deduplication, as Python `dict.fromkeys` ordering. -/
def dedupFirstAux [DecidableEq α] (seen : List α) : List α → List α
  | [] => []
  | x :: xs =>
    if seen.contains x then dedupFirstAux seen xs
    else x :: dedupFirstAux (seen ++ [x]) xs

/-- Deduplicate keeping first occurrences. -/
def dedupFirst [DecidableEq α] (l : List α) : List α := dedupFirstAux [] l

/-- Python word character (`\w`, ASCII): letters, digits, underscore. -/
def isWordChar (c : Char) : Bool := c.isAlphanum || c = '_'

/-- Start of a Python identifier (`[a-zA-Z_]`). -/
def isIdentStart (c : Char) : Bool := c.isAlpha || c = '_'

/-- Case-insensitive literal match of `pat` at the head of `l`,
returning the remainder on success. -/
def matchCi : List Char → List Char → Option (List Char)
  | [], l => some l
  | _ :: _, [] => none
  | p :: ps, c :: cs => if c.toUpper = p.toUpper then matchCi ps cs else none

/-- Does predicate `p` hold at some (nonempty) suffix of `l`?
(Models `re.search` for patterns that need at least one character.) -/
def scanAny (p : List Char → Bool) : List Char → Bool
  | [] => false
  | c :: cs => p (c :: cs) || scanAny p cs

/-! ## Safety gate (`QueryIntelligenceService._validate_query_safety`) -/

/-- The allow-listed statement verbs (query_intelligence.py line 649). -/
def allowed_starts : List String := ["SELECT", "SHOW", "DESCRIBE", "DESC", "EXPLAIN"]

/-- The deny-listed keywords (query_intelligence.py line 653). -/
def forbidden_keywords : List String :=
  ["INSERT", "UPDATE", "DELETE", "DROP", "ALTER", "CREATE", "TRUNCATE", "GRANT", "REVOKE"]

/-- `_validate_query_safety` (query_intelligence.py lines 645-659): the
mandatory safety gate.  `Except.error m` models `raise ValueError(m)`.
Note the keyword test is plain substring containment on the upper-cased
query, and the semicolon test fires only when the query does not end
(after right-stripping whitespace) with a semicolon. -/
def validate_query_safety (sql_query : String) : Except String Unit :=
  let sql_upper := pyStrip (pyUpper sql_query)
  if !(allowed_starts.any fun s => pyStartsWith sql_upper s) then
    .error "Only SELECT, SHOW, DESCRIBE, DESC, EXPLAIN queries are allowed"
  else
    match forbidden_keywords.find? (fun k => strContains sql_upper k) with
    | some k => .error ("Forbidden keyword " ++ k ++ " found in query")
    | none =>
      if strContains sql_query ";" && !(pyEndsWith (pyRstrip sql_query) ";") then
        .error "Multiple statements not allowed"
      else
        .ok ()

/-! ### Claim-side (spec-worded) predicates for the safety gate -/

/-- Left/right word-boundary test used by `standaloneCount`. -/
def boundaryOk : Option Char → Bool
  | none => true
  | some c => !(isWordChar c)

/-- Counts standalone (whole-word) occurrences of `kw` in `l`,
tracking the previous character for the left boundary. -/
def standaloneCountAux (kw : List Char) : Option Char → List Char → Nat
  | _, [] => 0
  | prev, c :: cs =>
    (if boundaryOk prev && kw.isPrefixOf (c :: cs)
        && boundaryOk ((c :: cs).drop kw.length).head? then 1 else 0)
      + standaloneCountAux kw (some c) cs

/-- Does `kw` occur in `s` as a standalone word (non-word characters or
string ends on both sides)?  This is the spec claim's reading of the
keyword rule, stated for comparison with the code's substring test. -/
def hasStandaloneWord (s kw : String) : Bool :=
  standaloneCountAux kw.data none s.data ≠ 0

/-- Spec-worded predicate: the upper-cased, stripped statement contains
some forbidden keyword as a standalone word. -/
def containsStandaloneForbidden (sql : String) : Bool :=
  forbidden_keywords.any fun k => hasStandaloneWord (pyStrip (pyUpper sql)) k

/-- Claim-side predicate for C1/C2: every semicolon of the statement, if
any, is its literal final character. -/
def onlyFinalSemicolon (s : String) : Bool := !(s.data.dropLast.contains ';')

/-- Claim-side predicate for C2: the statement has a semicolon at some
position other than its final character. -/
def hasNonFinalSemicolon (s : String) : Bool := s.data.dropLast.contains ';'

/-! ### Lemmas about the safety gate -/

lemma containsSub_singleton (c : Char) (l : List Char) :
    containsSub [c] l = l.contains c := by
  induction l with
  | nil => rfl
  | cons x xs ih =>
    simp only [containsSub, List.isPrefixOf, List.contains_cons, ih]
    by_cases h : x = c
    · simp [h]
    · simp [h, Ne.symm h, beq_iff_eq]

lemma getLast_semicolon_of_onlyFinal (s : String)
    (hsemi : onlyFinalSemicolon s = true) (hc : strContains s ";" = true) :
    ∃ init : List Char, s.data = init ++ [';'] ∧ init.contains ';' = false := by
  have hc' : s.data.contains ';' = true := by
    simpa [strContains, containsSub_singleton] using hc
  have hne : s.data ≠ [] := by
    intro h
    rw [h] at hc'
    simp [List.contains] at hc'
  have hd : s.data.dropLast.contains ';' = false := by
    simpa [onlyFinalSemicolon] using hsemi
  refine ⟨s.data.dropLast, ?_, hd⟩
  have hsplit := List.dropLast_append_getLast hne
  have hmem : ';' ∈ s.data := by simpa using hc'
  have hlast : s.data.getLast hne = ';' := by
    rcases (List.mem_append.mp (by rw [hsplit]; exact hmem)) with h1 | h2
    · exfalso
      have : s.data.dropLast.contains ';' = true := by simpa using h1
      rw [hd] at this; exact Bool.false_ne_true this
    · have : ';' = s.data.getLast hne := by simpa using h2
      exact this.symm
  rw [← hlast]
  exact hsplit.symm

lemma pyRstrip_endsWith_semicolon (s : String)
    (hsemi : onlyFinalSemicolon s = true) (hc : strContains s ";" = true) :
    pyEndsWith (pyRstrip s) ";" = true := by
  obtain ⟨init, hs, -⟩ := getLast_semicolon_of_onlyFinal s hsemi hc
  have hrev : s.data.reverse = ';' :: init.reverse := by
    rw [hs, List.reverse_append]; rfl
  have hsp : pyIsSpace ';' = false := by decide
  simp only [pyRstrip, pyEndsWith, hrev, List.dropWhile_cons, hsp]
  simp [List.isPrefixOf]

/-- The semicolon rule of the gate never fires on a statement whose only
semicolon, if any, is its final character. -/
lemma semicolon_cond_false_of_onlyFinal (s : String)
    (hsemi : onlyFinalSemicolon s = true) :
    (strContains s ";" && !(pyEndsWith (pyRstrip s) ";")) = false := by
  by_cases hc : strContains s ";" = true
  · rw [hc, pyRstrip_endsWith_semicolon s hsemi hc]; rfl
  · rw [Bool.not_eq_true] at hc; rw [hc]; rfl

/-- When the allow-list check passes, the gate reduces to the keyword
scan followed by the semicolon rule. -/
lemma validate_query_safety_of_start (sql : String)
    (hstart : (allowed_starts.any fun s => pyStartsWith (pyStrip (pyUpper sql)) s) = true) :
    validate_query_safety sql =
      (match forbidden_keywords.find? (fun k => strContains (pyStrip (pyUpper sql)) k) with
        | some k => .error ("Forbidden keyword " ++ k ++ " found in query")
        | none =>
          if strContains sql ";" && !(pyEndsWith (pyRstrip sql) ";") then
            .error "Multiple statements not allowed"
          else
            .ok ()) := by
  simp only [validate_query_safety]
  rw [hstart]
  simp

/-- C1 counterexample: `SELECT created_at FROM t LIMIT 10` starts with an
allowed verb, has no semicolon, and contains no forbidden keyword as a
standalone word, yet `_validate_query_safety` raises, because the gate
tests plain substring containment and `CREATED_AT` contains `CREATE`. -/
theorem c1_standalone_keyword_counterexample :
    (allowed_starts.any fun s =>
        pyStartsWith (pyStrip (pyUpper "SELECT created_at FROM t LIMIT 10")) s) = true
    ∧ onlyFinalSemicolon "SELECT created_at FROM t LIMIT 10" = true
    ∧ containsStandaloneForbidden "SELECT created_at FROM t LIMIT 10" = false
    ∧ validate_query_safety "SELECT created_at FROM t LIMIT 10"
        = .error "Forbidden keyword CREATE found in query" :=
  ⟨by decide, by decide, by decide, rfl⟩

/-- C1 (amended): for a statement that begins with an allowed verb and
whose only semicolon, if any, is its final character,
`_validate_query_safety` raises if and only if the upper-cased statement
contains one of the forbidden keywords as a plain substring (also inside
longer identifiers); in particular it rejects
`SELECT * FROM t; DROP TABLE t;` and accepts `SELECT * FROM t LIMIT 10`. -/
theorem c1_safety_gate_amended (sql : String)
    (hstart : (allowed_starts.any fun s => pyStartsWith (pyStrip (pyUpper sql)) s) = true)
    (hsemi : onlyFinalSemicolon sql = true) :
    validate_query_safety "SELECT * FROM t; DROP TABLE t;"
        = .error "Forbidden keyword DROP found in query"
    ∧ validate_query_safety "SELECT * FROM t LIMIT 10" = .ok ()
    ∧ ((validate_query_safety sql ≠ .ok ()) ↔
        (forbidden_keywords.any fun k => strContains (pyStrip (pyUpper sql)) k) = true) := by
  refine ⟨rfl, rfl, ?_⟩
  rw [validate_query_safety_of_start sql hstart]
  cases hfind : forbidden_keywords.find? (fun k => strContains (pyStrip (pyUpper sql)) k) with
  | some k =>
    constructor
    · intro _
      exact List.any_eq_true.mpr
        ⟨k, List.mem_of_find?_eq_some hfind, List.find?_some hfind⟩
    · intro _
      simp
  | none =>
    rw [semicolon_cond_false_of_onlyFinal sql hsemi]
    simp only [Bool.false_eq_true, if_false]
    constructor
    · intro h
      exact absurd rfl h
    · intro h
      rcases List.any_eq_true.mp h with ⟨k, hk, hp⟩
      have := List.find?_eq_none.mp hfind k hk
      exact absurd hp this

/-- C1 witness: the amended theorem applied at `SHOW GRANTS`, which the
gate rejects (the substring `GRANT` is present). -/
theorem c1_safety_gate_witness :
    (allowed_starts.any fun s => pyStartsWith (pyStrip (pyUpper "SHOW GRANTS")) s) = true
    ∧ onlyFinalSemicolon "SHOW GRANTS" = true
    ∧ validate_query_safety "SHOW GRANTS" ≠ .ok () :=
  ⟨by decide, by decide,
    (c1_safety_gate_amended "SHOW GRANTS" (by decide) (by decide)).2.2.mpr (by decide)⟩

/-- C2 counterexample: the multi-statement payload `SELECT 1; SELECT 2;`
has a semicolon at a non-final position, yet `_validate_query_safety`
accepts it, because the semicolon rule only fires when the right-stripped
statement does not end with a semicolon. -/
theorem c2_multistatement_counterexample :
    hasNonFinalSemicolon "SELECT 1; SELECT 2;" = true
    ∧ validate_query_safety "SELECT 1; SELECT 2;" = .ok () :=
  ⟨by decide, rfl⟩

/-- C2 (amended): for a statement that begins with an allowed verb and
contains no forbidden-keyword substring, `_validate_query_safety` raises
`Multiple statements not allowed` if and only if the statement contains a
semicolon and its whitespace-right-stripped form does not end with a
semicolon; a statement whose only semicolon is its final character is
never rejected, but so is any multi-statement payload ending in `;`. -/
theorem c2_semicolon_rule_amended (sql : String)
    (hstart : (allowed_starts.any fun s => pyStartsWith (pyStrip (pyUpper sql)) s) = true)
    (hkw : (forbidden_keywords.any fun k => strContains (pyStrip (pyUpper sql)) k) = false) :
    (validate_query_safety sql = .error "Multiple statements not allowed"
        ↔ (strContains sql ";" && !(pyEndsWith (pyRstrip sql) ";")) = true)
    ∧ (validate_query_safety sql = .ok ()
        ↔ (strContains sql ";" && !(pyEndsWith (pyRstrip sql) ";")) = false) := by
  have hfind : forbidden_keywords.find? (fun k => strContains (pyStrip (pyUpper sql)) k) = none := by
    rw [List.find?_eq_none]
    intro k hk
    intro hp
    have : (forbidden_keywords.any fun k => strContains (pyStrip (pyUpper sql)) k) = true :=
      List.any_eq_true.mpr ⟨k, hk, hp⟩
    rw [hkw] at this
    exact Bool.false_ne_true this
  rw [validate_query_safety_of_start sql hstart, hfind]
  cases hcond : (strContains sql ";" && !(pyEndsWith (pyRstrip sql) ";")) with
  | true => simp
  | false => simp

/-- C2 witness: the amended theorem applied at `SELECT 1; SELECT 2`,
which the gate rejects. -/
theorem c2_semicolon_rule_witness :
    (allowed_starts.any fun s => pyStartsWith (pyStrip (pyUpper "SELECT 1; SELECT 2")) s) = true
    ∧ (forbidden_keywords.any fun k =>
        strContains (pyStrip (pyUpper "SELECT 1; SELECT 2")) k) = false
    ∧ validate_query_safety "SELECT 1; SELECT 2" = .error "Multiple statements not allowed" :=
  ⟨by decide, by decide,
    ((c2_semicolon_rule_amended "SELECT 1; SELECT 2" (by decide) (by decide)).1).mpr (by decide)⟩

/-! ## Validation pipeline (`query_validation.py`) -/

/-- `ValidationLevel` (query_validation.py lines 19-24). -/
inductive ValidationLevel
  | info
  | warning
  | error
  | critical
deriving DecidableEq, Repr

/-- `ValidationResult` (query_validation.py lines 27-34). -/
structure ValidationResult where
  level : ValidationLevel
  message : String
  suggestion : Option String := none
  auto_correctable : Bool := false
  corrected_sql : Option String := none
deriving DecidableEq, Repr

/-- `QueryComplexity` (query_validation.py lines 37-45); the float
`complexity_score` is kept as an exact rational (all inputs are small
integers, so Python float arithmetic is exact here). -/
structure QueryComplexity where
  table_count : Nat
  join_count : Nat
  subquery_count : Nat
  aggregate_functions : List String
  complexity_score : ℚ
deriving DecidableEq, Repr

/-- Oracle for the third-party `sqlparse` behaviour used by the
validator: whether `sqlparse.parse(sql)[0]` raises (it does on input
with no statements, e.g. the empty string), and the token-level table
extraction of `_extract_table_names` (which swallows its own
exceptions and returns a list). -/
structure SqlParseOracle where
  parseFails : String → Bool
  extractTables : String → List String

/-- Python truthiness of an `Optional[str]` (`None` and `""` are falsy). -/
def truthyStr : Option String → Bool
  | none => false
  | some s => s ≠ ""

/-- Matcher for `[a-zA-Z_]\w*\.[a-zA-Z_]\w*` anchored at the head of `l`
(the backtracking regex is deterministic here because `.` is not a word
character). -/
def matchIdentDot (l : List Char) : Bool :=
  match l with
  | [] => false
  | c :: rest =>
    isIdentStart c &&
      (match rest.dropWhile isWordChar with
        | '.' :: d :: _ => isIdentStart d
        | _ => false)

/-- Matcher for `SELECT\s+[a-zA-Z_]\w*\.[a-zA-Z_]\w*` (case-insensitive)
anchored at the head of `l`. -/
def selectDotAt (l : List Char) : Bool :=
  match matchCi "SELECT".data l with
  | some (w :: r) => pyIsSpace w && matchIdentDot ((w :: r).dropWhile pyIsSpace)
  | _ => false

/-- Matcher for `FROM\s+\w+` (case-insensitive) anchored at the head. -/
def fromWordAt (l : List Char) : Bool :=
  match matchCi "FROM".data l with
  | some (w :: r) =>
    pyIsSpace w &&
      (match (w :: r).dropWhile pyIsSpace with
        | d :: _ => isWordChar d
        | [] => false)
  | _ => false

/-- `HealthcareQueryValidator._has_table_aliases_without_from`
(query_validation.py lines 231-240): a `table.column` reference after a
`SELECT`, with no `FROM` clause anywhere. -/
def has_table_aliases_without_from (sql : String) : Bool :=
  scanAny selectDotAt sql.data && !(scanAny fromWordAt sql.data)

/-- `HealthcareQueryValidator._fix_missing_from_clause`
(query_validation.py lines 242-246): returns the SQL unchanged. -/
def fix_missing_from_clause (sql : String) : String := sql

/-- The critical alias-without-FROM result emitted by `_validate_syntax`
(query_validation.py lines 113-119); its correction is the identity. -/
def aliasCritical (sql : String) : ValidationResult :=
  { level := .critical
    message := "Table aliases used without proper FROM clause"
    suggestion := some "Define table aliases in FROM clause with JOIN statements"
    auto_correctable := true
    corrected_sql := some (fix_missing_from_clause sql) }

/-- `_validate_syntax` (query_validation.py lines 95-128).  When
`sqlparse.parse(sql)[0]` raises, only the catch-all syntax-error result
is produced; otherwise the SELECT check and the alias-without-FROM
check run in order. -/
def validate_syntax_stage (O : SqlParseOracle) (sql : String) : List ValidationResult :=
  if O.parseFails sql then
    [{ level := .error
       message := "SQL syntax error"
       suggestion := some "Check SQL syntax and fix parsing errors" }]
  else
    (if !(pyStartsWith (pyStrip (pyUpper sql)) "SELECT") then
      [{ level := .error
         message := "Query must start with SELECT statement"
         suggestion := some "Use SELECT to query data from tables" }]
    else []) ++
    (if has_table_aliases_without_from sql then [aliasCritical sql] else [])

/-- The healthcare table allow-list (query_validation.py lines 54-59;
a Python `set`, modelled in source order — only membership is used by
the checks below). -/
def healthcare_tables : List String :=
  ["pasien", "dokter", "reg_periksa", "pemeriksaan_ralan",
   "pemeriksaan_ranap", "diagnosa_pasien", "resep_dokter",
   "rawat_inap_dr", "rawat_jl_dr", "kamar_inap", "operasi",
   "periksa_lab", "periksa_radiologi"]

/-- The sensitive columns (query_validation.py lines 61-64; a Python
`set`, modelled in source order — the scan order only affects the order
of equal-level warnings). -/
def sensitive_columns : List String :=
  ["no_ktp", "no_rkm_medis", "alamat", "no_tlp", "email",
   "tgl_lahir", "nama_keluarga", "diagnosa"]

/-- `required_joins` (query_validation.py lines 66-70). -/
def required_joins : List ((String × String) × String) :=
  [(("pasien", "dokter"), "reg_periksa"),
   (("dokter", "pemeriksaan"), "reg_periksa"),
   (("pasien", "diagnosa"), "reg_periksa")]

/-- `_validate_healthcare_joins` (query_validation.py lines 273-285). -/
def validate_healthcare_joins (tables : List String) : List ValidationResult :=
  required_joins.filterMap fun p =>
    if tables.contains p.1.1 && tables.contains p.1.2 && !(tables.contains p.2) then
      some { level := .warning
             message := "Query joining " ++ p.1.1 ++ " and " ++ p.1.2 ++
               " should include " ++ p.2
             suggestion := some ("Add JOIN with " ++ p.2 ++
               " to establish proper healthcare relationships") }
    else none

/-- `_validate_healthcare_schema` (query_validation.py lines 130-149). -/
def validate_healthcare_schema (O : SqlParseOracle) (sql : String) : List ValidationResult :=
  let tables := O.extractTables sql
  (tables.filterMap fun t =>
    if !(healthcare_tables.contains t) && !(pyStartsWith t "temp_") then
      some { level := .warning
             message := "Table " ++ t ++ " is not a recognized healthcare table"
             suggestion := some "Verify table name or use core healthcare tables" }
    else none) ++
  validate_healthcare_joins tables

/-- `_validate_business_logic` (query_validation.py lines 151-173). -/
def validate_business_logic (sql question : String) : List ValidationResult :=
  (if strContains sql "pasien" && strContains sql "dokter"
      && !(strContains sql "reg_periksa") then
    [{ level := .warning
       message := "Patient-doctor queries should include registration (reg_periksa) table"
       suggestion := some "JOIN through reg_periksa to establish patient-doctor relationships" }]
  else []) ++
  (if (["recent", "latest", "today", "yesterday"].any fun w =>
        strContains (pyLower question) w)
      && (!(strContains (pyUpper sql) "ORDER BY") || !(strContains sql "tgl_")) then
    [{ level := .info
       message := "Time-based queries should include date ordering"
       suggestion := some "Add ORDER BY tgl_registrasi DESC or similar date column" }]
  else [])

/-- Count of standalone-word occurrences of `kw` in `s`
(models `re.findall` with a `\b`-delimited literal). -/
def standaloneCount (s kw : String) : Nat := standaloneCountAux kw.data none s.data

/-- Count of occurrences of the literal `kw` preceded by a word boundary
(models `re.findall` with a pattern like `\bCOUNT\(`). -/
def leftWordCountAux (kw : List Char) : Option Char → List Char → Nat
  | _, [] => 0
  | prev, c :: cs =>
    (if boundaryOk prev && kw.isPrefixOf (c :: cs) then 1 else 0)
      + leftWordCountAux kw (some c) cs

/-- Count `\b`-prefixed literal occurrences of `kw` in `s`. -/
def leftWordCount (s kw : String) : Nat := leftWordCountAux kw.data none s.data

/-- Count of a single character in a string. -/
def charCount (s : String) (c : Char) : Nat := s.data.count c

/-- `_analyze_complexity` (query_validation.py lines 287-316). -/
def analyze_complexity (sql : String) : QueryComplexity :=
  let sql_upper := pyUpper sql
  let table_count := standaloneCount sql_upper "FROM" + standaloneCount sql_upper "JOIN"
  let join_count := standaloneCount sql_upper "JOIN"
  let subquery_count : Int := (charCount sql '(' : Int) - (charCount sql ')' : Int)
  let agg_functions :=
    (List.replicate (leftWordCount sql_upper "COUNT(") "COUNT") ++
    (List.replicate (leftWordCount sql_upper "SUM(") "SUM") ++
    (List.replicate (leftWordCount sql_upper "AVG(") "AVG") ++
    (List.replicate (leftWordCount sql_upper "MAX(") "MAX") ++
    (List.replicate (leftWordCount sql_upper "MIN(") "MIN")
  { table_count := table_count
    join_count := join_count
    subquery_count := subquery_count.toNat
    aggregate_functions := agg_functions
    complexity_score :=
      (table_count : ℚ) + (join_count : ℚ) * 2 + (subquery_count : ℚ) * 3
        + (agg_functions.length : ℚ) * 3 / 2 }

/-- The auto-correctable missing-`LIMIT` warning emitted by
`_validate_performance` (query_validation.py lines 182-189). -/
def limitWarning (sql : String) : ValidationResult :=
  { level := .warning
    message := "Query without LIMIT clause may return too many rows"
    suggestion := some "Add LIMIT clause to control result set size"
    auto_correctable := true
    corrected_sql := some (pyRstripSemis sql ++ " LIMIT 100") }

/-- `_validate_performance` (query_validation.py lines 175-199). -/
def validate_performance (sql : String) : List ValidationResult :=
  let complexity := analyze_complexity sql
  (if !(strContains (pyUpper sql) "LIMIT") then [limitWarning sql]
  else []) ++
  (if complexity.join_count > 3 then
    [{ level := .info
       message := "Complex query with JOINs may be slow"
       suggestion := some "Consider query optimization or adding appropriate indexes" }]
  else [])

/-- Matcher for the injection pattern `'\s*OR\s*'1'\s*=\s*'1'`
(case-insensitive) anchored at the head of `l`. -/
def orTautologyAt (l : List Char) : Bool :=
  match l with
  | [] => false
  | c :: r =>
    c = Char.ofNat 39 &&
      (match matchCi "OR".data (r.dropWhile pyIsSpace) with
        | some r2 =>
          (match r2.dropWhile pyIsSpace with
            | a :: b :: c2 :: r4 =>
              a = Char.ofNat 39 && b = '1' && c2 = Char.ofNat 39 &&
                (match r4.dropWhile pyIsSpace with
                  | '=' :: r6 =>
                    (match r6.dropWhile pyIsSpace with
                      | x :: y :: z :: _ =>
                        x = Char.ofNat 39 && y = '1' && z = Char.ofNat 39
                      | _ => false)
                  | _ => false)
            | _ => false)
        | none => false)

/-- Matcher for `;\s*DROP\s+TABLE` (case-insensitive) anchored at
the head of `l`. -/
def dropTableAt (l : List Char) : Bool :=
  match l with
  | ';' :: r =>
    (match matchCi "DROP".data (r.dropWhile pyIsSpace) with
      | some (w :: r2) =>
        pyIsSpace w && (matchCi "TABLE".data ((w :: r2).dropWhile pyIsSpace)).isSome
      | _ => false)
  | _ => false

/-- Matcher for `UNION\s+SELECT` (case-insensitive) anchored at
the head of `l`. -/
def unionSelectAt (l : List Char) : Bool :=
  match matchCi "UNION".data l with
  | some (w :: r) =>
    pyIsSpace w && (matchCi "SELECT".data ((w :: r).dropWhile pyIsSpace)).isSome
  | _ => false

/-- `_validate_security` (query_validation.py lines 201-229). -/
def validate_security (sql : String) : List ValidationResult :=
  (sensitive_columns.filterMap fun c =>
    if strContains (pyLower sql) c then
      some { level := .warning
             message := "Query accesses sensitive column: " ++ c
             suggestion := some "Ensure proper authorization for accessing sensitive healthcare data" }
    else none) ++
  ((([scanAny orTautologyAt sql.data, scanAny dropTableAt sql.data,
      scanAny unionSelectAt sql.data]).filterMap fun hit =>
    if hit then
      some { level := .critical
             message := "Potential SQL injection pattern detected"
             suggestion := some "Review query for malicious content" }
    else none))

/-- `HealthcareQueryValidator.validate_query` (query_validation.py
lines 72-93): the five stages, run unconditionally in order. -/
def validate_query (O : SqlParseOracle) (sql question : String) : List ValidationResult :=
  validate_syntax_stage O sql ++
  validate_healthcare_schema O sql ++
  validate_business_logic sql question ++
  validate_performance sql ++
  validate_security sql

/-- `QuerySelfCorrection.auto_correct_query` (query_validation.py
lines 328-361).  The first loop walks critical auto-correctable results
then the others, applying the first with a truthy `corrected_sql` and
breaking; the second loop (only reached when the first applied nothing)
looks for an auto-correctable result whose truthy `corrected_sql`
mentions `LIMIT`; an applied fix triggers exactly one re-validation. -/
def auto_correct_query (O : SqlParseOracle) (sql question : String) :
    String × List ValidationResult :=
  let validation_results := validate_query O sql question
  let critical_corrections := validation_results.filter fun r =>
    r.auto_correctable && r.level = ValidationLevel.critical
  let other_corrections := validation_results.filter fun r =>
    r.auto_correctable && !(r.level = ValidationLevel.critical)
  match (critical_corrections ++ other_corrections).find? (fun r => truthyStr r.corrected_sql) with
  | some r =>
    let corrected := r.corrected_sql.getD sql
    (corrected, validate_query O corrected question)
  | none =>
    match validation_results.find? (fun r =>
        r.auto_correctable && truthyStr r.corrected_sql
          && strContains (r.corrected_sql.getD "") "LIMIT") with
    | some r =>
      let corrected := r.corrected_sql.getD sql
      (corrected, validate_query O corrected question)
    | none => (sql, validation_results)

/-- The ordered list of corrections the first loop of
`auto_correct_query` can apply: critical auto-correctable results first,
then the rest, keeping only truthy `corrected_sql`. -/
def applicable_corrections (results : List ValidationResult) : List ValidationResult :=
  ((results.filter fun r => r.auto_correctable && r.level = ValidationLevel.critical) ++
   (results.filter fun r => r.auto_correctable && !(r.level = ValidationLevel.critical))).filter
    fun r => truthyStr r.corrected_sql

/-- Does the query (upper-cased) contain `LIMIT`? -/
def hasLimit (sql : String) : Bool := strContains (pyUpper sql) "LIMIT"

/-- A concrete instance of the sqlparse oracle used in concrete
evaluations: parsing fails exactly on the empty string, and the
statements evaluated below reference no tables after a `FROM`/`JOIN`
keyword, so table extraction is empty. -/
def sqlparseOracle0 : SqlParseOracle := ⟨fun s => s = "", fun _ => []⟩

/-! ### Lemmas about the validation pipeline -/

lemma find?_eq_head?_filter (p : α → Bool) (l : List α) :
    l.find? p = (l.filter p).head? := by
  induction l with
  | nil => rfl
  | cons a l ih =>
    rw [List.find?_cons, List.filter_cons]
    cases h : p a
    · exact ih
    · rfl

lemma filter_auto_filterMap_none {α : Type} (f : α → Option ValidationResult)
    (h : ∀ a r, f a = some r → r.auto_correctable = false) (l : List α) :
    ((l.filterMap f).filter fun r => r.auto_correctable) = [] := by
  induction l with
  | nil => rfl
  | cons a l ih =>
    cases hfa : f a with
    | none => simpa [List.filterMap_cons, hfa] using ih
    | some r =>
      have hr := h a r hfa
      simp [List.filterMap_cons, hfa, List.filter_cons, hr, ih]

lemma filter_auto_syntax_stage (O : SqlParseOracle) (sql : String) :
    ((validate_syntax_stage O sql).filter fun r => r.auto_correctable) =
      if O.parseFails sql then []
      else if has_table_aliases_without_from sql then [aliasCritical sql] else [] := by
  unfold validate_syntax_stage
  split_ifs with h1 h2 h3 h4 <;>
    simp [List.filter_append, List.filter, aliasCritical]

lemma filter_auto_joins (tables : List String) :
    ((validate_healthcare_joins tables).filter fun r => r.auto_correctable) = [] := by
  refine filter_auto_filterMap_none _ ?_ _
  intro a r h
  split at h
  · exact (Option.some.inj h) ▸ rfl
  · exact Option.noConfusion h

lemma filter_auto_schema (O : SqlParseOracle) (sql : String) :
    ((validate_healthcare_schema O sql).filter fun r => r.auto_correctable) = [] := by
  unfold validate_healthcare_schema
  rw [List.filter_append, filter_auto_joins, List.append_nil]
  refine filter_auto_filterMap_none _ ?_ _
  intro a r h
  split at h
  · exact (Option.some.inj h) ▸ rfl
  · exact Option.noConfusion h

lemma filter_auto_business (sql question : String) :
    ((validate_business_logic sql question).filter fun r => r.auto_correctable) = [] := by
  unfold validate_business_logic
  split_ifs <;> simp [List.filter_append, List.filter]

lemma filter_auto_performance (sql : String) :
    ((validate_performance sql).filter fun r => r.auto_correctable) =
      if hasLimit sql then [] else [limitWarning sql] := by
  simp only [validate_performance, hasLimit]
  split_ifs with h1 h2 h3 h4 <;>
    simp_all [List.filter_append, List.filter, limitWarning]

lemma filter_auto_security (sql : String) :
    ((validate_security sql).filter fun r => r.auto_correctable) = [] := by
  unfold validate_security
  rw [List.filter_append]
  rw [filter_auto_filterMap_none _ ?_ _, filter_auto_filterMap_none _ ?_ _]
  · rfl
  · intro a r h
    split at h
    · exact (Option.some.inj h) ▸ rfl
    · exact Option.noConfusion h
  · intro a r h
    split at h
    · exact (Option.some.inj h) ▸ rfl
    · exact Option.noConfusion h

/-- The auto-correctable content of a full validation run: the critical
alias fix (when sqlparse succeeded and the malformed pattern is present)
and the missing-`LIMIT` fix (when `LIMIT` is absent). -/
lemma filter_auto_validate (O : SqlParseOracle) (sql question : String) :
    ((validate_query O sql question).filter fun r => r.auto_correctable) =
      (if O.parseFails sql then []
       else if has_table_aliases_without_from sql then [aliasCritical sql] else [])
      ++ (if hasLimit sql then [] else [limitWarning sql]) := by
  unfold validate_query
  simp only [List.filter_append, filter_auto_syntax_stage, filter_auto_schema,
    filter_auto_business, filter_auto_performance, filter_auto_security,
    List.append_nil, List.nil_append]

lemma hasAlias_ne_empty (sql : String)
    (h : has_table_aliases_without_from sql = true) : sql ≠ "" := by
  intro he
  rw [he] at h
  exact absurd h (by decide)

lemma append_limit_ne_empty (s : String) : s ++ " LIMIT 100" ≠ "" := by
  intro h
  have hd : (s ++ " LIMIT 100").data = ([] : List Char) := by rw [h]
  rw [show (s ++ " LIMIT 100").data = s.data ++ (" LIMIT 100").data from rfl] at hd
  rcases List.append_eq_nil.mp hd with ⟨-, h2⟩
  exact absurd h2 (by decide)

/-- The filter step of `applicable_corrections` in terms of the two
possible fixes. -/
lemma applicable_corrections_validate (O : SqlParseOracle) (sql question : String) :
    applicable_corrections (validate_query O sql question) =
      (if O.parseFails sql then []
       else if has_table_aliases_without_from sql then [aliasCritical sql] else [])
      ++ (if hasLimit sql then [] else [limitWarning sql]) := by
  unfold applicable_corrections
  have hcrit : ((validate_query O sql question).filter fun r =>
      r.auto_correctable && decide (r.level = ValidationLevel.critical)) =
      (if O.parseFails sql then []
       else if has_table_aliases_without_from sql then [aliasCritical sql] else []) := by
    rw [show ((validate_query O sql question).filter fun r =>
        r.auto_correctable && decide (r.level = ValidationLevel.critical)) =
        (((validate_query O sql question).filter fun r => r.auto_correctable).filter
          fun r => decide (r.level = ValidationLevel.critical)) from ?_]
    · rw [filter_auto_validate, List.filter_append]
      split_ifs <;> simp [aliasCritical, limitWarning, List.filter]
    · rw [List.filter_filter]
      exact List.filter_congr fun a _ => Bool.and_comm _ _
  have hother : ((validate_query O sql question).filter fun r =>
      r.auto_correctable && !(decide (r.level = ValidationLevel.critical))) =
      (if hasLimit sql then [] else [limitWarning sql]) := by
    rw [show ((validate_query O sql question).filter fun r =>
        r.auto_correctable && !(decide (r.level = ValidationLevel.critical))) =
        (((validate_query O sql question).filter fun r => r.auto_correctable).filter
          fun r => !(decide (r.level = ValidationLevel.critical))) from ?_]
    · rw [filter_auto_validate, List.filter_append]
      split_ifs <;> simp [aliasCritical, limitWarning, List.filter]
    · rw [List.filter_filter]
      exact List.filter_congr fun a _ => Bool.and_comm _ _
  rw [hcrit, hother, List.filter_append]
  congr 1
  · split_ifs with h1 h2
    · rfl
    · have hne : fix_missing_from_clause sql ≠ "" := hasAlias_ne_empty sql h2
      simp [aliasCritical, List.filter, truthyStr, hne]
    · rfl
  · split_ifs with h1
    · rfl
    · have hne : pyRstripSemis sql ++ " LIMIT 100" ≠ "" := append_limit_ne_empty _
      simp [limitWarning, List.filter, truthyStr, hne]

/-- `auto_correct_query` applies the head of `applicable_corrections`
(or nothing), re-validating once when a fix was applied. -/
lemma auto_correct_eq (O : SqlParseOracle) (sql question : String) :
    auto_correct_query O sql question =
      match (applicable_corrections (validate_query O sql question)).head? with
      | some r =>
        (r.corrected_sql.getD sql, validate_query O (r.corrected_sql.getD sql) question)
      | none => (sql, validate_query O sql question) := by
  simp only [auto_correct_query, applicable_corrections]
  rw [find?_eq_head?_filter]
  cases happ : (((validate_query O sql question).filter fun r =>
      r.auto_correctable && decide (r.level = ValidationLevel.critical)) ++
      ((validate_query O sql question).filter fun r =>
        r.auto_correctable && !(decide (r.level = ValidationLevel.critical)))).filter
        (fun r => truthyStr r.corrected_sql) with
  | cons r rest => rfl
  | nil =>
    simp only [List.head?_nil]
    have hsecond : (validate_query O sql question).find? (fun r =>
        r.auto_correctable && truthyStr r.corrected_sql
          && strContains (r.corrected_sql.getD "") "LIMIT") = none := by
      rw [List.find?_eq_none]
      intro x hx hpx
      have hpx' := hpx
      simp only [Bool.and_eq_true] at hpx'
      obtain ⟨⟨hauto, htruthy⟩, -⟩ := hpx'
      have hmem2 : x ∈ ((validate_query O sql question).filter fun r =>
          r.auto_correctable && decide (r.level = ValidationLevel.critical)) ++
          ((validate_query O sql question).filter fun r =>
            r.auto_correctable && !(decide (r.level = ValidationLevel.critical))) := by
        by_cases hc : x.level = ValidationLevel.critical
        · exact List.mem_append.mpr (Or.inl (List.mem_filter.mpr
            ⟨hx, by rw [hauto, decide_eq_true hc]; rfl⟩))
        · exact List.mem_append.mpr (Or.inr (List.mem_filter.mpr
            ⟨hx, by rw [hauto, decide_eq_false hc]; rfl⟩))
      have := List.filter_eq_nil_iff.mp happ x hmem2
      exact this htruthy
    rw [hsecond]

lemma containsSub_append_right (n a b : List Char) (h : containsSub n b = true) :
    containsSub n (a ++ b) = true := by
  induction a with
  | nil => simpa using h
  | cons c rest ih =>
    show (n.isPrefixOf (c :: (rest ++ b)) || containsSub n (rest ++ b)) = true
    rw [ih]
    exact Bool.or_true _

lemma hasLimit_append_limit (s : String) : hasLimit (s ++ " LIMIT 100") = true := by
  unfold hasLimit strContains pyUpper
  show containsSub "LIMIT".data ((s.data ++ (" LIMIT 100").data).map Char.toUpper) = true
  rw [List.map_append]
  exact containsSub_append_right _ _ _ (by decide)

lemma auto_correct_fst_of_hasLimit (O : SqlParseOracle) (sql question : String)
    (h : hasLimit sql = true) : (auto_correct_query O sql question).1 = sql := by
  rw [auto_correct_eq, applicable_corrections_validate, if_pos h, List.append_nil]
  by_cases h1 : O.parseFails sql
  · rw [if_pos h1]
    rfl
  · rw [if_neg h1]
    by_cases h2 : has_table_aliases_without_from sql
    · rw [if_pos h2]
      rfl
    · rw [if_neg h2]
      rfl

lemma auto_correct_fst_cases (O : SqlParseOracle) (sql question : String) :
    (auto_correct_query O sql question).1 = sql ∨
      (auto_correct_query O sql question).1 = pyRstripSemis sql ++ " LIMIT 100" := by
  rw [auto_correct_eq, applicable_corrections_validate]
  by_cases h1 : O.parseFails sql
  · rw [if_pos h1, List.nil_append]
    by_cases h3 : hasLimit sql
    · rw [if_pos h3]
      exact Or.inl rfl
    · rw [if_neg h3]
      exact Or.inr rfl
  · rw [if_neg h1]
    by_cases h2 : has_table_aliases_without_from sql
    · rw [if_pos h2]
      exact Or.inl rfl
    · rw [if_neg h2, List.nil_append]
      by_cases h3 : hasLimit sql
      · rw [if_pos h3]
        exact Or.inl rfl
      · rw [if_neg h3]
        exact Or.inr rfl

/-- C4: one invocation of `auto_correct_query` applies at most one fix —
the head of the ordered applicable-corrections list, criticals first.
If no fix applies, the input SQL and its original validation results are
returned; if one applies, the five-stage validation set is re-run exactly
once on the corrected SQL and returned with it, and the applied fix is
critical whenever a critical auto-correctable fix was available. -/
theorem c4_auto_correct_single_fix (O : SqlParseOracle) (sql question : String) :
    (applicable_corrections (validate_query O sql question) = [] →
      auto_correct_query O sql question = (sql, validate_query O sql question))
    ∧ (∀ r rest, applicable_corrections (validate_query O sql question) = r :: rest →
        r ∈ validate_query O sql question ∧ r.auto_correctable = true
        ∧ auto_correct_query O sql question =
            (r.corrected_sql.getD sql,
              validate_query O (r.corrected_sql.getD sql) question)
        ∧ (((validate_query O sql question).any fun x =>
              x.auto_correctable && decide (x.level = ValidationLevel.critical)
                && truthyStr x.corrected_sql) = true →
            r.level = ValidationLevel.critical)) := by
  constructor
  · intro happ
    rw [auto_correct_eq, happ]
    rfl
  · intro r rest happ
    have hrapp : r ∈ applicable_corrections (validate_query O sql question) := by
      rw [happ]
      exact List.mem_cons_self r rest
    have hrL : r ∈ ((validate_query O sql question).filter fun x =>
        x.auto_correctable && decide (x.level = ValidationLevel.critical)) ++
        ((validate_query O sql question).filter fun x =>
          x.auto_correctable && !(decide (x.level = ValidationLevel.critical))) :=
      (List.mem_filter.mp hrapp).1
    have hrmem : r ∈ validate_query O sql question ∧ r.auto_correctable = true := by
      rcases List.mem_append.mp hrL with hin | hin
      · have h := List.mem_filter.mp hin
        have h2 := h.2
        simp only [Bool.and_eq_true] at h2
        exact ⟨h.1, h2.1⟩
      · have h := List.mem_filter.mp hin
        have h2 := h.2
        simp only [Bool.and_eq_true] at h2
        exact ⟨h.1, h2.1⟩
    refine ⟨hrmem.1, hrmem.2, ?_, ?_⟩
    · rw [auto_correct_eq, happ]
      rfl
    · intro hany
      rcases List.any_eq_true.mp hany with ⟨x, hx, hpx⟩
      simp only [Bool.and_eq_true] at hpx
      obtain ⟨⟨hauto, hcrit⟩, htruthy⟩ := hpx
      have hxcrit : x ∈ ((validate_query O sql question).filter fun y =>
          y.auto_correctable && decide (y.level = ValidationLevel.critical)).filter
            (fun y => truthyStr y.corrected_sql) :=
        List.mem_filter.mpr ⟨List.mem_filter.mpr ⟨hx, by rw [hauto, hcrit]; rfl⟩, htruthy⟩
      have happ2 : applicable_corrections (validate_query O sql question) =
          (((validate_query O sql question).filter fun y =>
            y.auto_correctable && decide (y.level = ValidationLevel.critical)).filter
              (fun y => truthyStr y.corrected_sql)) ++
          (((validate_query O sql question).filter fun y =>
            y.auto_correctable && !(decide (y.level = ValidationLevel.critical))).filter
              (fun y => truthyStr y.corrected_sql)) := by
        unfold applicable_corrections
        rw [List.filter_append]
      cases hcf : ((validate_query O sql question).filter fun y =>
          y.auto_correctable && decide (y.level = ValidationLevel.critical)).filter
            (fun y => truthyStr y.corrected_sql) with
      | nil =>
        rw [hcf] at hxcrit
        exact absurd hxcrit (List.not_mem_nil x)
      | cons y ys =>
        have : y :: (ys ++ (((validate_query O sql question).filter fun z =>
            z.auto_correctable && !(decide (z.level = ValidationLevel.critical))).filter
              (fun z => truthyStr z.corrected_sql))) = r :: rest := by
          rw [← List.cons_append, ← hcf, ← happ2, happ]
        have hyr : y = r := (List.cons.injEq _ _ _ _ ▸ this).1
        have hy := List.mem_filter.mp (hcf ▸ List.mem_cons_self y ys :
          y ∈ ((validate_query O sql question).filter fun z =>
            z.auto_correctable && decide (z.level = ValidationLevel.critical)).filter
              (fun z => truthyStr z.corrected_sql))
        have hy2 := (List.mem_filter.mp hy.1).2
        simp only [Bool.and_eq_true] at hy2
        rw [← hyr]
        exact of_decide_eq_true hy2.2

/-- C4 witness: for `SELECT 1` (no `LIMIT`, well-formed), the single
applicable fix is the missing-`LIMIT` warning, and `auto_correct_query`
applies it once and re-validates the corrected SQL. -/
theorem c4_auto_correct_witness :
    applicable_corrections (validate_query sqlparseOracle0 "SELECT 1" "")
      = [limitWarning "SELECT 1"]
    ∧ limitWarning "SELECT 1" ∈ validate_query sqlparseOracle0 "SELECT 1" ""
    ∧ auto_correct_query sqlparseOracle0 "SELECT 1" ""
        = ("SELECT 1 LIMIT 100", validate_query sqlparseOracle0 "SELECT 1 LIMIT 100" "") := by
  have h := (c4_auto_correct_single_fix sqlparseOracle0 "SELECT 1" "").2
    (limitWarning "SELECT 1") [] (by decide)
  exact ⟨by decide, h.1, by rw [h.2.2.1]; decide⟩

/-- C7 counterexample: `SELECT t.a` contains no `LIMIT` clause, yet
`auto_correct_query` does not append `LIMIT 100`: the critical
alias-without-FROM correction is applied first, and its fix is the
identity, so the returned SQL still lacks `LIMIT`. -/
theorem c7_limit_correction_counterexample :
    hasLimit "SELECT t.a" = false
    ∧ (auto_correct_query sqlparseOracle0 "SELECT t.a" "").1 = "SELECT t.a"
    ∧ ¬ ((auto_correct_query sqlparseOracle0 "SELECT t.a" "").1
          = pyRstripSemis "SELECT t.a" ++ " LIMIT 100") :=
  ⟨by decide, rfl, by decide⟩

/-- C7 (amended): on SQL lacking `LIMIT` that does not trigger the
critical alias-without-FROM correction, one invocation of
`auto_correct_query` returns the input with (after stripping trailing
semicolons) exactly one ` LIMIT 100` appended; on SQL that already
contains `LIMIT` the returned SQL equals the input; and the returned SQL
is idempotent — correcting the corrected SQL returns it unchanged. -/
theorem c7_limit_correction_amended (O : SqlParseOracle) (sql question : String) :
    ((hasLimit sql = false ∧
        (O.parseFails sql = false → has_table_aliases_without_from sql = false)) →
      (auto_correct_query O sql question).1 = pyRstripSemis sql ++ " LIMIT 100")
    ∧ (hasLimit sql = true → (auto_correct_query O sql question).1 = sql)
    ∧ (auto_correct_query O ((auto_correct_query O sql question).1) question).1
        = (auto_correct_query O sql question).1 := by
  refine ⟨?_, ?_, ?_⟩
  · rintro ⟨h1, h2⟩
    rw [auto_correct_eq, applicable_corrections_validate]
    have h1' : ¬ (hasLimit sql = true) := by rw [h1]; exact Bool.false_ne_true
    by_cases hp : O.parseFails sql = true
    · rw [if_pos hp, if_neg h1', List.nil_append]
      rfl
    · have hp' : O.parseFails sql = false := by simpa using hp
      have ha : ¬ (has_table_aliases_without_from sql = true) := by
        rw [h2 hp']; exact Bool.false_ne_true
      rw [if_neg hp, if_neg ha, if_neg h1', List.nil_append]
      rfl
  · exact auto_correct_fst_of_hasLimit O sql question
  · rcases auto_correct_fst_cases O sql question with h | h
    · rw [h]
      exact h
    · rw [h]
      exact auto_correct_fst_of_hasLimit O _ question (hasLimit_append_limit _)

/-- C7 witness: the amended theorem applied at `SELECT 1`, whose
correction appends exactly one `LIMIT 100`. -/
theorem c7_limit_correction_witness :
    hasLimit "SELECT 1" = false
    ∧ (sqlparseOracle0.parseFails "SELECT 1" = false →
        has_table_aliases_without_from "SELECT 1" = false)
    ∧ (auto_correct_query sqlparseOracle0 "SELECT 1" "").1 = "SELECT 1 LIMIT 100" := by
  refine ⟨by decide, fun _ => by decide, ?_⟩
  have h := (c7_limit_correction_amended sqlparseOracle0 "SELECT 1" "").1
    ⟨by decide, fun _ => by decide⟩
  rw [h]
  decide

/-! ## Relationship graph (`schema_knowledge.py`) -/

/-- `RelationshipEdge` (schema_knowledge.py lines 38-48). -/
structure RelationshipEdge where
  source_table : String
  target_table : String
  source_column : String
  target_column : String
  relationship_type : String := "foreign_key"
deriving DecidableEq, Repr

/-- `RelationshipGraph` (schema_knowledge.py lines 50-67).  `nodes`
records the keys of the Python `nodes` dict in insertion order (the
`TableInfo` payload is never consulted by the traversal operations
verified here); `adjacency` models the `defaultdict(list)` as a total
function defaulting to `[]`. -/
structure RelationshipGraph where
  nodes : List String
  edges : List RelationshipEdge
  adjacency : String → List String

/-- A freshly constructed `RelationshipGraph()`. -/
def RelationshipGraph.emptyGraph : RelationshipGraph := ⟨[], [], fun _ => []⟩

/-- `RelationshipGraph.add_table` (lines 58-60): dict assignment keyed
by the table name (re-adding a name keeps its key position). -/
def RelationshipGraph.add_table (g : RelationshipGraph) (name : String) : RelationshipGraph :=
  if g.nodes.contains name then g else { g with nodes := g.nodes ++ [name] }

/-- `RelationshipGraph.add_relationship` (lines 62-67): appends the edge
and the two directed adjacency entries, without any node-membership
check. -/
def RelationshipGraph.add_relationship (g : RelationshipGraph) (e : RelationshipEdge) :
    RelationshipGraph :=
  let adj1 := fun t =>
    if t = e.source_table then g.adjacency t ++ [e.target_table] else g.adjacency t
  let adj2 := fun t =>
    if t = e.target_table then adj1 t ++ [e.source_table] else adj1 t
  { g with edges := g.edges ++ [e], adjacency := adj2 }

/-- A construction step of a `RelationshipGraph`. -/
inductive GraphOp
  | addTable (name : String)
  | addRel (e : RelationshipEdge)

/-- Apply one construction step. -/
def applyOp (g : RelationshipGraph) : GraphOp → RelationshipGraph
  | .addTable n => g.add_table n
  | .addRel e => g.add_relationship e

/-- The graph built by a sequence of `add_table` / `add_relationship`
calls on a fresh graph (as `_build_relationship_graph` does,
schema_knowledge.py lines 275-298). -/
def buildGraph (ops : List GraphOp) : RelationshipGraph :=
  ops.foldl applyOp RelationshipGraph.emptyGraph

/-- The symmetric (bidirectional) adjacency view derived from an edge
list, in edge order — the spec's invariant for `adjacency`. -/
def adjacencyFromEdges (es : List RelationshipEdge) : String → List String :=
  fun t =>
    es.foldl (fun acc e =>
      acc ++ (if t = e.source_table then [e.target_table] else [])
          ++ (if t = e.target_table then [e.source_table] else [])) []

/-- BFS worker for `find_shortest_path` (lines 69-91).  `fuel` bounds
the number of pops; every pop either skips a visited node or visits a
fresh one pushing at most its degree, so `2 * |edges| + 2` pops always
suffice for a graph whose adjacency is derived from its edges. -/
def bfsAux (g : RelationshipGraph) (endTable : String) :
    Nat → List String → List (String × List String) → List String
  | 0, _, _ => []
  | _ + 1, _, [] => []
  | fuel + 1, visited, (current, path) :: queue =>
    if visited.contains current then bfsAux g endTable fuel visited queue
    else
      let neighbors := g.adjacency current
      if neighbors.contains endTable then path ++ [endTable]
      else
        bfsAux g endTable fuel (visited ++ [current])
          (queue ++ (neighbors.filter fun n => !((visited ++ [current]).contains n)).map
            fun n => (n, path ++ [n]))

/-- `RelationshipGraph.find_shortest_path` (lines 69-91). -/
def RelationshipGraph.find_shortest_path (g : RelationshipGraph)
    (start_table end_table : String) : List String :=
  if start_table = end_table then [start_table]
  else bfsAux g end_table (2 * g.edges.length + 2) [] [(start_table, [start_table])]

/-- The inner `for edge in self.edges` scan of `find_join_path`
(lines 124-129): the first edge directly connecting the two tables. -/
def firstDirectEdge (g : RelationshipGraph) (t1 t2 : String) : Option RelationshipEdge :=
  g.edges.find? fun e =>
    (e.source_table = t1 && e.target_table = t2) ||
    (e.source_table = t2 && e.target_table = t1)

/-- One (connected, remaining) pair of the nested search of
`find_join_path` (lines 118-129): when the BFS path is nonempty and
shorter than the best distance, the distance is updated, and the best
edge is overwritten only when a direct edge between the pair exists
(otherwise it keeps its previous value — as in the source). -/
def bestStep (g : RelationshipGraph) (st : Option RelationshipEdge × Option Nat)
    (c r : String) : Option RelationshipEdge × Option Nat :=
  let path := g.find_shortest_path c r
  if !path.isEmpty && (match st.2 with | none => true | some d => decide (path.length < d)) then
    ((match firstDirectEdge g c r with
      | some e => some e
      | none => st.1), some path.length)
  else st

/-- The full nested pair search of one `while` iteration
(`best_edge = None`, `best_distance = inf` reset each iteration). -/
def bestSearch (g : RelationshipGraph) (connected remaining : List String) :
    Option RelationshipEdge × Option Nat :=
  connected.foldl (fun st c => remaining.foldl (fun st2 r => bestStep g st2 c r) st)
    (none, none)

/-- The `while remaining_tables` loop of `find_join_path`
(lines 114-141).  `fuel` bounds the iterations; every iteration that
finds an edge with an endpoint in `remaining` removes that endpoint. -/
def joinLoop (g : RelationshipGraph) :
    Nat → List String → List String → List RelationshipEdge → List RelationshipEdge
  | 0, _, _, acc => acc
  | fuel + 1, connected, remaining, acc =>
    if remaining.isEmpty then acc
    else
      match (bestSearch g connected remaining).1 with
      | none => acc
      | some e =>
        if remaining.contains e.source_table then
          joinLoop g fuel (connected ++ [e.source_table])
            (remaining.filter fun t => t ≠ e.source_table) (acc ++ [e])
        else if remaining.contains e.target_table then
          joinLoop g fuel (connected ++ [e.target_table])
            (remaining.filter fun t => t ≠ e.target_table) (acc ++ [e])
        else
          joinLoop g fuel connected remaining (acc ++ [e])

/-- `RelationshipGraph.find_join_path` (lines 93-143).  The Python sets
`connected_tables` / `remaining_tables` are modelled as
insertion-ordered duplicate-free lists. -/
def RelationshipGraph.find_join_path (g : RelationshipGraph) (tables : List String) :
    List RelationshipEdge :=
  if tables.length ≤ 1 then []
  else
    let start_table :=
      ((["pasien", "reg_periksa"].find? fun hub => tables.contains hub)).getD
        (tables.headD "")
    joinLoop g (tables.length + 1) [start_table]
      ((dedupFirst tables).filter fun t => t ≠ start_table) []

/-! ### C9: graph invariants -/

/-- C9 counterexample: a graph built by a single `add_relationship`
call has an edge whose endpoints are absent from the (empty) node set —
`add_relationship` performs no node-membership check. -/
theorem c9_edge_endpoints_counterexample :
    (buildGraph [GraphOp.addRel ⟨"A", "B", "x", "id", "foreign_key"⟩]).edges
      = [⟨"A", "B", "x", "id", "foreign_key"⟩]
    ∧ (buildGraph [GraphOp.addRel ⟨"A", "B", "x", "id", "foreign_key"⟩]).nodes = []
    ∧ ((buildGraph [GraphOp.addRel ⟨"A", "B", "x", "id", "foreign_key"⟩]).edges.all
        fun e =>
          (buildGraph [GraphOp.addRel ⟨"A", "B", "x", "id", "foreign_key"⟩]).nodes.contains
              e.source_table
          && (buildGraph [GraphOp.addRel ⟨"A", "B", "x", "id", "foreign_key"⟩]).nodes.contains
              e.target_table) = false :=
  ⟨rfl, rfl, by decide⟩

lemma applyOp_adjacency (g : RelationshipGraph) (op : GraphOp)
    (h : g.adjacency = adjacencyFromEdges g.edges) :
    (applyOp g op).adjacency = adjacencyFromEdges (applyOp g op).edges := by
  cases op with
  | addTable n =>
    show (g.add_table n).adjacency = adjacencyFromEdges (g.add_table n).edges
    unfold RelationshipGraph.add_table
    by_cases hc : g.nodes.contains n
    · rw [if_pos hc]
      exact h
    · rw [if_neg hc]
      exact h
  | addRel e =>
    show (g.add_relationship e).adjacency = adjacencyFromEdges (g.add_relationship e).edges
    funext t
    show (if t = e.target_table then
        (if t = e.source_table then g.adjacency t ++ [e.target_table] else g.adjacency t)
          ++ [e.source_table]
      else
        (if t = e.source_table then g.adjacency t ++ [e.target_table] else g.adjacency t))
      = adjacencyFromEdges (g.edges ++ [e]) t
    have hfold : adjacencyFromEdges (g.edges ++ [e]) t =
        adjacencyFromEdges g.edges t
          ++ (if t = e.source_table then [e.target_table] else [])
          ++ (if t = e.target_table then [e.source_table] else []) := by
      unfold adjacencyFromEdges
      rw [List.foldl_append]
      rfl
    rw [hfold, ← h]
    split_ifs with h1 h2 h3 <;> simp [List.append_assoc]

/-- C9 (amended): for every graph built by any sequence of `add_table`
and `add_relationship` operations, the adjacency map is exactly the
symmetric (bidirectional) view of the edge list, never mutated
independently of it; however edge endpoints are not required to be in
the node set — `add_relationship` performs no membership check, so the
endpoint half of the invariant holds only when every referenced table
was separately added. -/
theorem c9_adjacency_amended (ops : List GraphOp) :
    (buildGraph ops).adjacency = adjacencyFromEdges (buildGraph ops).edges := by
  suffices h : ∀ (l : List GraphOp) (g : RelationshipGraph),
      g.adjacency = adjacencyFromEdges g.edges →
      (l.foldl applyOp g).adjacency = adjacencyFromEdges (l.foldl applyOp g).edges by
    refine h ops RelationshipGraph.emptyGraph ?_
    funext t
    rfl
  intro l
  induction l with
  | nil => intro g hg; exact hg
  | cons op rest ih =>
    intro g hg
    exact ih (applyOp g op) (applyOp_adjacency g op hg)

/-! ## Schema cache manager (`query_intelligence.py` lines 69-78, 302-340, 486-506) -/

/-- The environment-derived cache configuration
(`ENABLE_RELATIONSHIP_CACHE`, `CACHE_TTL_MINUTES`,
`CACHE_REFRESH_ON_SCHEMA_CHANGE`; defaults true / 30 / true). -/
structure CacheConfig where
  enable_cache : Bool
  cache_ttl_minutes : Nat
  refresh_on_schema_change : Bool
deriving DecidableEq, Repr

/-- One `_schema_cache` entry (`{'timestamp': ..., 'context': ...}`);
time is in whole seconds. -/
structure CacheEntry where
  timestamp : Nat
  context : String
deriving DecidableEq, Repr

/-- One `_relationship_cache` entry. -/
structure RelCacheEntry where
  timestamp : Nat
  relationships : List String
  tables : List String
deriving DecidableEq, Repr

/-- The mutable cache state of `QueryIntelligenceService`
(`_schema_cache`, `_relationship_cache`, `_schema_hash_cache`,
`_last_schema_check`); dicts are modelled as insertion-ordered
association lists. -/
structure IntelCacheState where
  schema_cache : List (String × CacheEntry)
  relationship_cache : List (String × RelCacheEntry)
  schema_hash_cache : Option String
  last_schema_check : Nat
deriving DecidableEq, Repr

/-- Python dict lookup. -/
def assocLookup {α : Type} : List (String × α) → String → Option α
  | [], _ => none
  | p :: m, k => if p.1 = k then some p.2 else assocLookup m k

/-- Python dict assignment: replace in key position, append if absent. -/
def assocSet {α : Type} : List (String × α) → String → α → List (String × α)
  | [], k, v => [(k, v)]
  | p :: m, k, v => if p.1 = k then (k, v) :: m else p :: assocSet m k v

/-- `_should_refresh_cache` (lines 486-506): caching disabled, TTL
elapsed since the last schema check, or (when enabled) a changed schema
hash — the latter also records the new hash. -/
def should_refresh_cache (cfg : CacheConfig) (st : IntelCacheState)
    (now : Nat) (current_hash : String) : Bool × IntelCacheState :=
  if !cfg.enable_cache then (true, st)
  else if now - st.last_schema_check > cfg.cache_ttl_minutes * 60 then (true, st)
  else if cfg.refresh_on_schema_change then
    if st.schema_hash_cache ≠ some current_hash then
      (true, { st with schema_hash_cache := some current_hash })
    else (false, st)
  else (false, st)

/-- `_get_complete_schema_context_cached` (lines 302-340).  The values
obtained from the database connection are parameters: `cache_key` (the
digest of the sorted table list), `current_hash` (`_get_schema_hash`)
and `fresh_context` (`_build_schema_context`).  When a refresh is due,
both caches are cleared and `_last_schema_check` reset; a cached entry
is served only when younger than the TTL; otherwise the fresh context
is returned and (when caching is enabled) stored with the current
timestamp. -/
def get_complete_schema_context_cached (cfg : CacheConfig) (st : IntelCacheState)
    (now : Nat) (cache_key current_hash fresh_context : String) :
    String × IntelCacheState :=
  let rs := should_refresh_cache cfg st now current_hash
  let st1 := if rs.1 then
      { rs.2 with schema_cache := [], relationship_cache := [], last_schema_check := now }
    else rs.2
  match (if cfg.enable_cache then assocLookup st1.schema_cache cache_key else none) with
  | some cached_data =>
    if now - cached_data.timestamp < cfg.cache_ttl_minutes * 60 then
      (cached_data.context, st1)
    else
      (fresh_context,
        if cfg.enable_cache then
          { st1 with schema_cache := assocSet st1.schema_cache cache_key ⟨now, fresh_context⟩ }
        else st1)
  | none =>
    (fresh_context,
      if cfg.enable_cache then
        { st1 with schema_cache := assocSet st1.schema_cache cache_key ⟨now, fresh_context⟩ }
      else st1)

lemma assocLookup_assocSet {α : Type} (m : List (String × α)) (k : String) (v : α) :
    assocLookup (assocSet m k v) k = some v := by
  induction m with
  | nil => simp [assocSet, assocLookup]
  | cons p m ih =>
    by_cases h : p.1 = k
    · simp [assocSet, assocLookup, h]
    · simp [assocSet, assocLookup, h, ih]

lemma should_refresh_snd_of_false (cfg : CacheConfig) (st : IntelCacheState)
    (now : Nat) (h : String)
    (hfalse : (should_refresh_cache cfg st now h).1 = false) :
    (should_refresh_cache cfg st now h).2 = st := by
  unfold should_refresh_cache at hfalse ⊢
  split_ifs at hfalse ⊢
  all_goals first | rfl | simp at hfalse

lemma should_refresh_of_hash_change (cfg : CacheConfig) (st : IntelCacheState)
    (now : Nat) (h : String) (hen : cfg.enable_cache = true)
    (hrc : cfg.refresh_on_schema_change = true)
    (hdiff : st.schema_hash_cache ≠ some h) :
    (should_refresh_cache cfg st now h).1 = true := by
  unfold should_refresh_cache
  rw [hen, hrc]
  by_cases h2 : now - st.last_schema_check > cfg.cache_ttl_minutes * 60
  · simp [h2]
  · simp [h2, hdiff]

/-- C6: (TTL) when every cached entry under the requested key is at
least TTL seconds old, the fetch never serves it — it returns the fresh
context and re-caches it with the current timestamp; (hash) whenever
the computed schema hash differs from the last known hash, both the
schema cache and the relationship cache are fully cleared and rebuilt
by this fetch, even if the TTL has not elapsed.  Stated for the default
configuration (caching enabled, refresh-on-schema-change enabled). -/
theorem c6_cache_ttl_hash (cfg : CacheConfig) (st : IntelCacheState)
    (now : Nat) (cache_key current_hash fresh_context : String)
    (hen : cfg.enable_cache = true) (hrc : cfg.refresh_on_schema_change = true) :
    (((assocLookup st.schema_cache cache_key).all fun cd =>
        decide (cfg.cache_ttl_minutes * 60 ≤ now - cd.timestamp)) = true →
      (get_complete_schema_context_cached cfg st now cache_key current_hash fresh_context).1
          = fresh_context
      ∧ assocLookup (get_complete_schema_context_cached cfg st now cache_key current_hash
            fresh_context).2.schema_cache cache_key = some ⟨now, fresh_context⟩)
    ∧ (st.schema_hash_cache ≠ some current_hash →
      (get_complete_schema_context_cached cfg st now cache_key current_hash fresh_context).1
          = fresh_context
      ∧ (get_complete_schema_context_cached cfg st now cache_key current_hash
            fresh_context).2.schema_cache = [(cache_key, ⟨now, fresh_context⟩)]
      ∧ (get_complete_schema_context_cached cfg st now cache_key current_hash
            fresh_context).2.relationship_cache = []) := by
  constructor
  · intro hstale
    rcases hrs : should_refresh_cache cfg st now current_hash with ⟨b, st0⟩
    cases b with
    | true =>
      refine ⟨?_, ?_⟩ <;>
        simp [get_complete_schema_context_cached, hrs, hen, assocLookup, assocLookup_assocSet]
    | false =>
      have hst0 : st0 = st := by
        have h2 := should_refresh_snd_of_false cfg st now current_hash (by rw [hrs])
        rw [hrs] at h2
        exact h2
      rw [hst0] at hrs
      cases hlk : assocLookup st.schema_cache cache_key with
      | none =>
        refine ⟨?_, ?_⟩ <;>
          simp [get_complete_schema_context_cached, hrs, hen, hlk, assocLookup_assocSet]
      | some cd =>
        have hstale' : cfg.cache_ttl_minutes * 60 ≤ now - cd.timestamp := by
          rw [hlk] at hstale
          simpa [Option.all] using hstale
        have hcond : ¬ (now - cd.timestamp < cfg.cache_ttl_minutes * 60) := by omega
        refine ⟨?_, ?_⟩ <;>
          simp [get_complete_schema_context_cached, hrs, hen, hlk, hcond, assocLookup_assocSet]
  · intro hdiff
    have hb : (should_refresh_cache cfg st now current_hash).1 = true :=
      should_refresh_of_hash_change cfg st now current_hash hen hrc hdiff
    rcases hrs : should_refresh_cache cfg st now current_hash with ⟨b, st0⟩
    rw [hrs] at hb
    simp only at hb
    subst hb
    refine ⟨?_, ?_, ?_⟩ <;>
      simp [get_complete_schema_context_cached, hrs, hen, assocLookup, assocSet]

/-- C6 witness: a state with a 4000-second-old entry (TTL 30 min) and a
stale hash; the fetch returns the fresh context, clears the
relationship cache and repopulates the schema cache. -/
theorem c6_cache_witness :
    (((assocLookup (IntelCacheState.mk [("k", ⟨0, "old"⟩)] [("r", ⟨0, [], []⟩)]
          (some "h1") 0).schema_cache "k").all fun cd =>
        decide ((30 : Nat) * 60 ≤ 4000 - cd.timestamp)) = true)
    ∧ ((IntelCacheState.mk [("k", ⟨0, "old"⟩)] [("r", ⟨0, [], []⟩)] (some "h1") 0).schema_hash_cache
        ≠ some "h2")
    ∧ (get_complete_schema_context_cached ⟨true, 30, true⟩
        (IntelCacheState.mk [("k", ⟨0, "old"⟩)] [("r", ⟨0, [], []⟩)] (some "h1") 0)
        4000 "k" "h2" "fresh").1 = "fresh"
    ∧ (get_complete_schema_context_cached ⟨true, 30, true⟩
        (IntelCacheState.mk [("k", ⟨0, "old"⟩)] [("r", ⟨0, [], []⟩)] (some "h1") 0)
        4000 "k" "h2" "fresh").2.schema_cache = [("k", ⟨4000, "fresh"⟩)]
    ∧ (get_complete_schema_context_cached ⟨true, 30, true⟩
        (IntelCacheState.mk [("k", ⟨0, "old"⟩)] [("r", ⟨0, [], []⟩)] (some "h1") 0)
        4000 "k" "h2" "fresh").2.relationship_cache = [] := by
  have h := (c6_cache_ttl_hash ⟨true, 30, true⟩
    (IntelCacheState.mk [("k", ⟨0, "old"⟩)] [("r", ⟨0, [], []⟩)] (some "h1") 0)
    4000 "k" "h2" "fresh" rfl rfl).2 (by decide)
  exact ⟨by decide, by decide, h.1, h.2.1, h.2.2⟩

/-! ## Query planner (`query_intelligence.py` lines 1119-1239) -/

/-- The dict returned by `_analyze_query_requirements`. -/
structure QueryPlan where
  requires_multiple_tables : Bool
  complexity : String
  mentioned_tables : List String
  relationship_indicators : List String
  suggested_tables : List String
deriving DecidableEq, Repr

/-- The generic multi-table connective words
(query_intelligence.py lines 1131-1134). -/
def multi_table_keywords : List String :=
  ["join", "with", "and", "by", "across", "between", "relating", "connected",
   "along with", "together with", "including", "combined with"]

/-- Table names whose lower-cased form contains one of `words`, appended
to `relevant` in table order when not already present (the inner loops
of `_suggest_relevant_tables`). -/
def addMatchingTables (relevant tables : List String) (words : List String) : List String :=
  tables.foldl (fun rel t =>
    if (words.any fun w => strContains (pyLower t) w) && !(rel.contains t) then rel ++ [t]
    else rel) relevant

/-- `_suggest_relevant_tables` (lines 1204-1239). -/
def suggest_relevant_tables (question_lower : String) (tables : List String)
    (relationship_indicators : List String) : List String :=
  let relevant := tables.filter fun t => strContains question_lower (pyLower t)
  relationship_indicators.foldl (fun relevant ind =>
    if ind = "user_related" then
      addMatchingTables relevant tables ["user", "customer", "person", "account", "profile"]
    else if ind = "product_related" then
      addMatchingTables relevant tables ["product", "item", "goods", "catalog", "inventory"]
    else if ind = "transaction_related" then
      addMatchingTables relevant tables
        ["order", "sale", "purchase", "transaction", "payment", "invoice"]
    else if ind = "project_related" then
      addMatchingTables relevant tables ["project", "task", "activity", "work", "assignment"]
    else relevant) relevant

/-- `_analyze_query_requirements` (lines 1119-1202): extracts the
`Table: ` lines of the schema context, collects relationship
indicators, and walks the ordered complexity rules. -/
def analyze_query_requirements (question schema_context : String) : QueryPlan :=
  let question_lower := pyLower question
  let tables := (pySplitChar '\n' schema_context).filterMap fun line =>
    if pyStartsWith line "Table: " then some (pyStrip (strReplace line "Table: " ""))
    else none
  let mentioned_tables := tables.filter fun t => strContains question_lower (pyLower t)
  let relationship_indicators :=
    (if ["patient", "pasien"].any (fun w => strContains question_lower w) then
      ["patient_related"] else []) ++
    (if ["doctor", "dokter", "physician"].any (fun w => strContains question_lower w) then
      ["doctor_related"] else []) ++
    (if ["visit", "periksa", "appointment", "registration"].any
        (fun w => strContains question_lower w) then ["visit_related"] else []) ++
    (if ["diagnosis", "diagnosa", "disease"].any (fun w => strContains question_lower w) then
      ["diagnosis_related"] else []) ++
    (if ["prescription", "medication", "obat", "resep"].any
        (fun w => strContains question_lower w) then ["medication_related"] else []) ++
    (if ["user", "customer", "owner"].any (fun w => strContains question_lower w) then
      ["user_related"] else []) ++
    (if ["product", "item", "goods"].any (fun w => strContains question_lower w) then
      ["product_related"] else []) ++
    (if ["order", "sale", "purchase", "transaction"].any
        (fun w => strContains question_lower w) then ["transaction_related"] else []) ++
    (if ["project", "task", "activity"].any (fun w => strContains question_lower w) then
      ["project_related"] else [])
  let rmc : Bool × String :=
    if mentioned_tables.length ≥ 2 then (true, "complex")
    else if relationship_indicators.length ≥ 2 then (true, "complex")
    else if multi_table_keywords.any (fun w => strContains question_lower w) then
      (true, "moderate")
    else if (strContains question_lower "doctor" || strContains question_lower "dokter")
        && (strContains question_lower "patient" || strContains question_lower "visit"
            || strContains question_lower "pasien") then
      (true, "complex")
    else if (strContains question_lower "patient" || strContains question_lower "pasien")
        && (strContains question_lower "diagnosis" || strContains question_lower "diagnosa") then
      (true, "complex")
    else if (["total", "sum", "count", "average", "max", "min"].any
          fun w => strContains question_lower w)
        && (["by", "per", "for each", "group"].any fun w => strContains question_lower w) then
      (decide (tables.length > 1), "moderate")
    else (false, "simple")
  { requires_multiple_tables := rmc.1
    complexity := rmc.2
    mentioned_tables := mentioned_tables
    relationship_indicators := relationship_indicators
    suggested_tables := suggest_relevant_tables question_lower tables relationship_indicators }

/-! ## Join-path generation (`query_intelligence.py` lines 998-1117) -/

/-- One row of a `DESCRIBE <table>` result, as unpacked by the source
(`field, type_, null, key, default, extra`). -/
structure DescRow where
  field : String
  type_ : String
  nullable : String
  key : String
  default : String
  extra : String
deriving DecidableEq, Repr

/-- `_find_table_by_name` (lines 1106-1117): fuzzy match, first hit in
table order. -/
def find_table_by_name (tables : List String) (name : String) : Option String :=
  let name_lower := pyLower name
  tables.find? fun t =>
    let table_lower := pyLower t
    table_lower = name_lower || table_lower = name_lower ++ "s"
      || table_lower ++ "s" = name_lower
      || strContains table_lower name_lower || strContains name_lower table_lower

/-- The foreign-key-like columns of a table: rows that are not the
primary key, end in `_id` and are not `id` themselves (lines 1019-1024). -/
def fksOf (describe : String → List DescRow) (t : String) : List String :=
  (describe t).filterMap fun c =>
    if c.key ≠ "PRI" && pyEndsWith c.field "_id" && c.field ≠ "id" then some c.field
    else none

/-- The primary-key column of a table (last `PRI` row wins, as the dict
assignment does; lines 1019-1020). -/
def pkOf (describe : String → List DescRow) (t : String) : Option String :=
  ((describe t).filter fun c => c.key = "PRI").getLast?.map DescRow.field

/-- Ordered pairs `(l[i], l[j])` with `i < j` (the
`for i, x in enumerate(l): for y in l[i+1:]` pattern). -/
def orderedPairs {α : Type} : List α → List (α × α)
  | [] => []
  | x :: xs => (xs.map fun y => (x, y)) ++ orderedPairs xs

/-- `_generate_join_paths` (lines 998-1104) with the `DESCRIBE` cursor
results supplied by the `describe` oracle.  The four pattern families
are generated in source order, deduplicated preserving first
occurrences, and truncated to 10. -/
def generate_join_paths (tables : List String) (describe : String → List DescRow) :
    List String :=
  let twoTable := tables.flatMap fun t1 =>
    (fksOf describe t1).flatMap fun fk =>
      let referenced := strReplace fk "_id" ""
      tables.filterMap fun t2 =>
        if pyLower t2 = pyLower referenced || pyLower t2 = pyLower referenced ++ "s"
            || pyLower t2 ++ "s" = pyLower referenced then
          (pkOf describe t2).map fun pk =>
            "2-TABLE: SELECT * FROM " ++ t1 ++ " JOIN " ++ t2 ++ " ON " ++ t1 ++ "."
              ++ fk ++ " = " ++ t2 ++ "." ++ pk
        else none
  let threeTable := tables.flatMap fun t1 =>
    if (fksOf describe t1).length ≥ 2 then
      (orderedPairs (fksOf describe t1)).filterMap fun p =>
        let ref1 := strReplace p.1 "_id" ""
        let ref2 := strReplace p.2 "_id" ""
        match find_table_by_name tables ref1, find_table_by_name tables ref2 with
        | some t2, some t3 =>
          if t2 ≠ t3 then
            some ("3-TABLE: SELECT * FROM " ++ t2 ++ " JOIN " ++ t1 ++ " ON " ++ t2 ++ "."
              ++ ((pkOf describe t2).getD "id") ++ " = " ++ t1 ++ "." ++ p.1
              ++ " JOIN " ++ t3 ++ " ON " ++ t1 ++ "." ++ p.2 ++ " = " ++ t3 ++ "."
              ++ ((pkOf describe t3).getD "id"))
          else none
        | _, _ => none
    else []
  let chains := tables.flatMap fun start_table =>
    (fksOf describe start_table).flatMap fun fk =>
      match find_table_by_name tables (strReplace fk "_id" "") with
      | some middle_table =>
        if (fksOf describe middle_table).isEmpty then []
        else
          (fksOf describe middle_table).filterMap fun middle_fk =>
            match find_table_by_name tables (strReplace middle_fk "_id" "") with
            | some end_table =>
              if end_table ≠ start_table then
                some ("CHAIN: SELECT * FROM " ++ start_table
                  ++ " JOIN " ++ middle_table ++ " ON " ++ start_table ++ "." ++ fk
                  ++ " = " ++ middle_table ++ "." ++ ((pkOf describe middle_table).getD "id")
                  ++ " JOIN " ++ end_table ++ " ON " ++ middle_table ++ "." ++ middle_fk
                  ++ " = " ++ end_table ++ "." ++ ((pkOf describe end_table).getD "id"))
              else none
            | none => none
      | none => []
  let fourTable :=
    if tables.length ≥ 4 then
      (tables.filter fun t => (fksOf describe t).length ≥ 2).flatMap fun central =>
        let connected := (fksOf describe central).filterMap fun fk =>
          (find_table_by_name tables (strReplace fk "_id" "")).map fun target => (target, fk)
        if connected.length ≥ 3 then
          ["4-TABLE: SELECT * " ++ joinWith " " (("FROM " ++ central) ::
            (connected.take 3).map fun p =>
              "JOIN " ++ p.1 ++ " ON " ++ central ++ "." ++ p.2 ++ " = " ++ p.1 ++ "."
                ++ ((pkOf describe p.1).getD "id"))]
        else []
    else []
  (dedupFirst (twoTable ++ threeTable ++ chains ++ fourTable)).take 10

/-- The `DESCRIBE` results of the claim C8 scenario:
`users(id, name)` and `sales(id, user_id, amount)`. -/
def usersSalesDescribe : String → List DescRow := fun t =>
  if t = "users" then
    [⟨"id", "int", "NO", "PRI", "", ""⟩, ⟨"name", "varchar(50)", "YES", "", "", ""⟩]
  else if t = "sales" then
    [⟨"id", "int", "NO", "PRI", "", ""⟩, ⟨"user_id", "int", "YES", "", "", ""⟩,
     ⟨"amount", "decimal(10,2)", "YES", "", "", ""⟩]
  else []

/-- A schema context containing exactly the `Table: ` lines the planner
extracts for the C8 scenario. -/
def usersSalesContext : String := "Table: users\nTable: sales"

/-- C8: for the schema `{users(id,name), sales(id,user_id,amount)}` and
the question `total sales by user`, the planner requires multiple
tables with complexity in {moderate, complex} (here: complex, via the
two relationship indicators user_related and transaction_related), and
the generated join paths consist exactly of the 2-table join on
`sales.user_id = users.id`. -/
theorem c8_users_sales_plan :
    (analyze_query_requirements "total sales by user" usersSalesContext).requires_multiple_tables
      = true
    ∧ ((analyze_query_requirements "total sales by user" usersSalesContext).complexity = "moderate"
        ∨ (analyze_query_requirements "total sales by user" usersSalesContext).complexity
            = "complex")
    ∧ generate_join_paths ["users", "sales"] usersSalesDescribe
        = ["2-TABLE: SELECT * FROM sales JOIN users ON sales.user_id = users.id"]
    ∧ ((generate_join_paths ["users", "sales"] usersSalesDescribe).any fun p =>
        strContains p "sales.user_id" && strContains p "users.id") = true :=
  ⟨rfl, Or.inr rfl, rfl, by decide⟩

/-! ## Result formatting and metadata helpers (`query_intelligence.py`) -/

/-- `_count_rows` (lines 1297-1300): the stripped result is split on
newlines and one line (the header) is discounted (`max(0, len - 1)` is
the truncated `Nat` subtraction, the split never being empty). -/
def count_rows (query_result : String) : Nat :=
  (pySplitChar '\n' (pyStrip query_result)).length - 1

/-- Claim-side reading of C10: the number of newline-separated lines of
the result itself (not of its stripped form), minus one, clamped at 0. -/
def claimed_count_rows (query_result : String) : Nat :=
  (pySplitChar '\n' query_result).length - 1

/-- The result-string construction of `_execute_sql_safely`
(lines 661-680), as a function of the cursor observations: the
description (column names, when present), the fetched rows (each item
already rendered with `str`, `None` as `Option.none`), and `rowcount`. -/
def execute_sql_result (description : Option (List String))
    (rows : List (List (Option String))) (rowcount : Int) : String :=
  match description with
  | some columns =>
    if !rows.isEmpty then
      joinWith "\n" (joinWith "," columns ::
        rows.map fun row => joinWith "," (row.map fun item => item.getD ""))
    else
      joinWith "," columns ++ "\nNo data found"
  | none => "Query executed successfully. Rows affected: " ++ toString rowcount

/-- `_format_for_llm_consumption` (lines 1272-1295). -/
def format_for_llm_consumption (query_result : String) : String :=
  let lines := pySplitChar '\n' (pyStrip query_result)
  if lines.length ≤ 1 then query_result
  else
    let headers := pySplitChar ',' (lines.headD "")
    let data_rows := lines.tail
    if data_rows.isEmpty
        || (data_rows.length = 1 && strContains (data_rows.headD "") "No data found") then
      "No data found matching the query criteria."
    else
      joinWith "\n"
        ((("Found " ++ toString data_rows.length ++ " record(s):") :: "" ::
          (List.enumFrom 1 (data_rows.take 10)).map fun p =>
            "Record " ++ toString p.1 ++ ": " ++
              joinWith " | " ((headers.zip (pySplitChar ',' p.2)).map fun q =>
                q.1 ++ ": " ++ q.2))
        ++ (if data_rows.length > 10 then
            ["... and " ++ toString (data_rows.length - 10) ++ " more records"]
          else []))

/-- `_classify_query_type` (lines 1309-1326). -/
def classify_query_type (sql : String) : String :=
  let sql_upper := pyStrip (pyUpper sql)
  if pyStartsWith sql_upper "SELECT" then
    if strContains sql_upper "COUNT(" then "count"
    else if strContains sql_upper "GROUP BY" then "aggregation"
    else if strContains sql_upper "ORDER BY" then "sorted_data"
    else "data_retrieval"
  else if pyStartsWith sql_upper "SHOW" then "schema_info"
  else if pyStartsWith sql_upper "DESCRIBE" || pyStartsWith sql_upper "DESC" then
    "table_schema"
  else "other"

/-- One attempt of the `(?:FROM|JOIN)\s+(\w+)` scan at the head of `l`:
the captured word and the remainder after the match. -/
def tryFromJoin (l : List Char) : Option (String × List Char) :=
  match (match matchCi "FROM".data l with
          | some r => some r
          | none => matchCi "JOIN".data l) with
  | some (w :: r) =>
    if pyIsSpace w then
      let r1 := (w :: r).dropWhile pyIsSpace
      let word := r1.takeWhile isWordChar
      if word.isEmpty then none
      else some (⟨word⟩, r1.dropWhile isWordChar)
    else none
  | _ => none

/-- Left-to-right non-overlapping `re.findall` scan (fuel is the input
length; every step consumes at least one character). -/
def extractTablesAux : Nat → List Char → List String
  | 0, _ => []
  | _ + 1, [] => []
  | fuel + 1, c :: cs =>
    match tryFromJoin (c :: cs) with
    | some (word, rest) => word :: extractTablesAux fuel rest
    | none => extractTablesAux fuel cs

/-- `_extract_tables_from_sql` (lines 1302-1307): `re.findall` of
`(?:FROM|JOIN)\s+(\w+)` then `list(set(...))`; the Python set order is
unspecified, modelled as first-occurrence order. -/
def extract_tables_from_sql (sql : String) : List String :=
  dedupFirst (extractTablesAux sql.data.length sql.data)

/-- `_enhance_context_for_multitable` (lines 1241-1270). -/
def enhance_context_for_multitable (schema_context : String) (query_plan : QueryPlan) :
    String :=
  if query_plan.requires_multiple_tables then
    joinWith "\n" ([schema_context]
      ++ ["\n=== MULTI-TABLE QUERY GUIDANCE ==="]
      ++ (if !query_plan.suggested_tables.isEmpty then
          ["FOCUS ON THESE TABLES: " ++ joinWith ", " query_plan.suggested_tables]
        else [])
      ++ ["\nCOMMON MULTI-TABLE PATTERNS:",
          "- User activities: JOIN users table with activity/transaction tables",
          "- Product sales: JOIN products with sales/orders tables",
          "- Order details: JOIN orders with customers and products",
          "- Project assignments: JOIN projects with users through assignment tables",
          "\nJOIN STRATEGY:",
          "1. Start with the main entity table (users, products, orders)",
          "2. Join related tables using foreign key relationships",
          "3. Use table aliases for clarity: u.name, p.title, o.date",
          "4. Include proper GROUP BY for aggregations"]
      ++ (if query_plan.complexity = "complex" then
          ["\nCOMPLEX QUERY TIPS:",
           "- Use subqueries if direct joins are complex",
           "- Consider intermediate result sets",
           "- Use EXISTS for existence checks",
           "- Apply LIMIT after all joins and filters"]
        else []))
  else
    joinWith "\n" [schema_context]

/-! ## Orchestrator (`query_intelligence.py` lines 106-208, 704-739) -/

/-- A Python exception: its class name and message. -/
structure PyErr where
  error_type : String
  msg : String
deriving DecidableEq, Repr

/-- The guidance dict built by `_provide_query_guidance`. -/
structure Guidance where
  suggestions : List String
  available_tables : List String
  column_hints : List (String × List String)
  example_queries : List String
deriving DecidableEq, Repr

/-- `_provide_query_guidance` (lines 704-739).  The whole `try` block
(database introspection plus `_analyze_query_error` and
`_generate_example_queries`) is the `body` oracle; on any exception the
function does not re-raise but returns the guidance dict with the single
generic suggestion (the dict fields filled before the exception are
approximated by the initial empty dict, matching a failure of the
initial `connect`). -/
def provide_query_guidance (body : Except PyErr Guidance) : Guidance :=
  match body with
  | .ok g => g
  | .error _ =>
    { suggestions := ["Could not analyze the database schema. Please try a simpler query."]
      available_tables := []
      column_hints := []
      example_queries := [] }

/-- `_format_guidance_response` (lines 912-941); apostrophes of the
source literals are elided. -/
def format_guidance_response (question : String) (guidance : Guidance)
    (error_message : String) : String :=
  joinWith "\n"
    (["I had trouble understanding your database question. Let me help you find what you are looking for:",
      ""]
    ++ (if !guidance.suggestions.isEmpty then
        ("💡 **Suggestions:**" :: (guidance.suggestions.take 4).map fun s => "   " ++ s)
          ++ [""]
      else [])
    ++ (if !guidance.available_tables.isEmpty then
        ["📋 **Available tables:** " ++ joinWith ", " guidance.available_tables, ""]
      else [])
    ++ (if !guidance.example_queries.isEmpty then
        ("✨ **Try asking:**" :: (guidance.example_queries.take 3).map fun e => "   " ++ e)
          ++ [""]
      else [])
    ++ ["Feel free to ask about specific tables or columns, and I will help you build the right query!"])

/-- The metadata dict of a successful response (line 183-191; basic
mode: no vector or schema knowledge service, so no healthcare
validation and no related suggestions). -/
structure QueryMetadata where
  rows_returned : Nat
  tables_accessed : List String
  query_type : String
  cache_used : Bool
  complexity : String
  related_suggestions : List String
deriving DecidableEq, Repr

/-- The success dict of `answer_database_question` (lines 176-192). -/
structure SuccessResponse where
  success : Bool
  question : String
  sql_query : String
  data : String
  formatted_response : String
  query_plan : QueryPlan
  metadata : QueryMetadata
deriving DecidableEq, Repr

/-- The failure dict of `answer_database_question` (lines 201-208). -/
structure FailureResponse where
  success : Bool
  question : String
  error : String
  error_type : String
  guidance : Guidance
  formatted_response : String
deriving DecidableEq, Repr

/-- Outcome of a call to `answer_database_question`: a returned success
dict, a returned failure dict, or a propagated Python exception. -/
inductive AnswerOutcome
  | success (r : SuccessResponse)
  | failure (r : FailureResponse)
  | raised (e : PyErr)
deriving DecidableEq, Repr

/-- The `try` block of `answer_database_question` (lines 110-192) in
basic mode: plan the question, enhance the context for multi-table
plans, draft SQL via the `generate_sql` oracle (the Ollama call, which
already raises on empty output), apply self-correction when the
validator is initialised, run the safety gate, execute via the
`execute_sql` oracle, and assemble the success dict. -/
def answer_try_body (O : SqlParseOracle) (question schema_context : String)
    (generate_sql : String → Except PyErr String) (has_validator : Bool)
    (execute_sql : String → Except PyErr String) (enable_cache : Bool) :
    Except PyErr SuccessResponse :=
  let query_plan := analyze_query_requirements question schema_context
  let enhanced_context :=
    if query_plan.requires_multiple_tables then
      enhance_context_for_multitable schema_context query_plan
    else schema_context
  match generate_sql enhanced_context with
  | .error e => .error e
  | .ok sql0 =>
    let sql_query := if has_validator then (auto_correct_query O sql0 question).1 else sql0
    match validate_query_safety sql_query with
    | .error m => .error ⟨"ValueError", m⟩
    | .ok _ =>
      match execute_sql sql_query with
      | .error e => .error e
      | .ok query_result =>
        .ok { success := true
              question := question
              sql_query := sql_query
              data := query_result
              formatted_response := format_for_llm_consumption query_result
              query_plan := query_plan
              metadata := { rows_returned := count_rows query_result
                            tables_accessed := extract_tables_from_sql sql_query
                            query_type := classify_query_type sql_query
                            cache_used := enable_cache
                            complexity := query_plan.complexity
                            related_suggestions := [] } }

/-- `answer_database_question` (lines 106-208).  The `except` handler
(lines 194-208) reads the local `schema_context`, which is unbound when
the very first stage raised; Python then raises `UnboundLocalError`
from the handler instead of returning the failure dict.  Otherwise the
handler builds guidance (via its own oracle) and returns the structured
failure dict. -/
def answer_database_question (O : SqlParseOracle) (question : String)
    (get_schema_context : Except PyErr String)
    (generate_sql : String → Except PyErr String) (has_validator : Bool)
    (execute_sql : String → Except PyErr String) (enable_cache : Bool)
    (guidance_body : Except PyErr Guidance) : AnswerOutcome :=
  match get_schema_context with
  | .error _ =>
    .raised ⟨"UnboundLocalError", "cannot access local variable schema_context"⟩
  | .ok schema_context =>
    match answer_try_body O question schema_context generate_sql has_validator
        execute_sql enable_cache with
    | .ok resp => .success resp
    | .error e =>
      let guidance := provide_query_guidance guidance_body
      .failure { success := false
                 question := question
                 error := e.msg
                 error_type := e.error_type
                 guidance := guidance
                 formatted_response := format_guidance_response question guidance e.msg }

/-- C3 counterexample: when the schema-context fetch itself raises, the
call does not return a structured failure dict — the handler hits the
unbound `schema_context` local and the call propagates
`UnboundLocalError`. -/
theorem c3_propagation_counterexample :
    answer_database_question sqlparseOracle0 "how many users"
        (.error ⟨"Error", "connection refused"⟩)
        (fun _ => .ok "SELECT 1") true (fun _ => .ok "x") true
        (.ok ⟨[], [], [], []⟩)
      = .raised ⟨"UnboundLocalError", "cannot access local variable schema_context"⟩ := rfl

/-- C3 (amended): if the schema-context fetch succeeds and any later
stage (planning, drafting, correction, safety gate, execution) raises,
the call returns a structured failure dict with `success = false`
containing the original question, the error message, the error class
name and the guidance payload; the guidance generator itself never
raises, degrading to the single generic suggestion (not to an empty
list) on internal failure.  When the schema-context fetch raises, the
call instead propagates `UnboundLocalError`
(see the counterexample). -/
theorem c3_failure_response_amended (O : SqlParseOracle) (question schema_context : String)
    (generate_sql : String → Except PyErr String) (has_validator : Bool)
    (execute_sql : String → Except PyErr String) (enable_cache : Bool)
    (guidance_body : Except PyErr Guidance) (e : PyErr)
    (h : answer_try_body O question schema_context generate_sql has_validator
        execute_sql enable_cache = .error e) :
    answer_database_question O question (.ok schema_context) generate_sql has_validator
        execute_sql enable_cache guidance_body
      = .failure { success := false
                   question := question
                   error := e.msg
                   error_type := e.error_type
                   guidance := provide_query_guidance guidance_body
                   formatted_response := format_guidance_response question
                     (provide_query_guidance guidance_body) e.msg }
    ∧ provide_query_guidance (.error e) =
        { suggestions := ["Could not analyze the database schema. Please try a simpler query."]
          available_tables := []
          column_hints := []
          example_queries := [] } := by
  constructor
  · rw [show answer_database_question O question (.ok schema_context) generate_sql
        has_validator execute_sql enable_cache guidance_body
        = (match answer_try_body O question schema_context generate_sql has_validator
            execute_sql enable_cache with
          | .ok resp => .success resp
          | .error err =>
            .failure { success := false
                       question := question
                       error := err.msg
                       error_type := err.error_type
                       guidance := provide_query_guidance guidance_body
                       formatted_response := format_guidance_response question
                         (provide_query_guidance guidance_body) err.msg }) from rfl, h]
  · rfl

/-- C3 witness: a drafting failure (Ollama timeout) is converted into
the structured failure dict, with guidance degraded to the generic
suggestion because the guidance generator also failed. -/
theorem c3_failure_response_witness :
    answer_try_body sqlparseOracle0 "how many users" "Table: users"
        (fun _ => .error ⟨"Exception", "Ollama timeout after 30s"⟩) true
        (fun _ => .ok "x") true
      = .error ⟨"Exception", "Ollama timeout after 30s"⟩
    ∧ answer_database_question sqlparseOracle0 "how many users" (.ok "Table: users")
        (fun _ => .error ⟨"Exception", "Ollama timeout after 30s"⟩) true
        (fun _ => .ok "x") true (.error ⟨"Error", "connection refused"⟩)
      = .failure { success := false
                   question := "how many users"
                   error := "Ollama timeout after 30s"
                   error_type := "Exception"
                   guidance := ⟨["Could not analyze the database schema. Please try a simpler query."], [], [], []⟩
                   formatted_response := format_guidance_response "how many users"
                     ⟨["Could not analyze the database schema. Please try a simpler query."], [], [], []⟩
                     "Ollama timeout after 30s" } := by
  constructor
  · rfl
  · exact (c3_failure_response_amended sqlparseOracle0 "how many users" "Table: users"
      (fun _ => .error ⟨"Exception", "Ollama timeout after 30s"⟩) true
      (fun _ => .ok "x") true (.error ⟨"Error", "connection refused"⟩)
      ⟨"Exception", "Ollama timeout after 30s"⟩ rfl).1

/-! ### C10: row counting and the zero-row payload -/

lemma dropWhile_append_of_any (p : Char → Bool) (a rest : List Char)
    (h : (a.any fun c => !(p c)) = true) :
    (a ++ rest).dropWhile p = a.dropWhile p ++ rest := by
  induction a with
  | nil => simp at h
  | cons c cs ih =>
    by_cases hp : p c = true
    · have hcs : (cs.any fun c => !(p c)) = true := by
        simpa [List.any_cons, hp] using h
      simpa [List.dropWhile_cons, hp] using ih hcs
    · have hp' : p c = false := by simpa using hp
      simp [List.dropWhile_cons, hp']

lemma contains_dropWhile_false (p : Char → Bool) (c : Char) (l : List Char)
    (h : l.contains c = false) : (l.dropWhile p).contains c = false := by
  induction l with
  | nil => rfl
  | cons x xs ih =>
    have hcx : (c == x) = false ∧ xs.contains c = false := by
      simpa only [List.contains_cons, Bool.or_eq_false_iff] using h
    by_cases hp : p x = true
    · simpa [List.dropWhile_cons, hp] using ih hcx.2
    · have hp' : p x = false := by simpa using hp
      rw [List.dropWhile_cons, hp']
      simpa using h

lemma pySplitCharAux_no_sep (c : Char) (acc l : List Char) (h : l.contains c = false) :
    pySplitCharAux c acc l = [⟨acc ++ l⟩] := by
  induction l generalizing acc with
  | nil => simp [pySplitCharAux]
  | cons x xs ih =>
    have hcx : (c == x) = false ∧ xs.contains c = false := by
      simpa only [List.contains_cons, Bool.or_eq_false_iff] using h
    have hne : ¬ (c = x) := by simpa using hcx.1
    have hx' : ¬ (x = c) := fun he => hne he.symm
    rw [pySplitCharAux, if_neg hx', ih (acc ++ [x]) hcx.2]
    simp

lemma pySplitCharAux_sep (c : Char) (acc a b : List Char) (ha : a.contains c = false) :
    pySplitCharAux c acc (a ++ c :: b) = ⟨acc ++ a⟩ :: pySplitCharAux c [] b := by
  induction a generalizing acc with
  | nil => simp [pySplitCharAux]
  | cons x xs ih =>
    have hcx : (c == x) = false ∧ xs.contains c = false := by
      simpa only [List.contains_cons, Bool.or_eq_false_iff] using ha
    have hne : ¬ (c = x) := by simpa using hcx.1
    have hx' : ¬ (x = c) := fun he => hne he.symm
    rw [List.cons_append, pySplitCharAux, if_neg hx', ih (acc ++ [x]) hcx.2]
    simp

/-- Stripping the zero-row payload only strips leading whitespace of the
header line. -/
lemma pyStripList_no_data (j : List Char)
    (hnws : (j.any fun c => !(pyIsSpace c)) = true) :
    pyStripList (j ++ '\n' :: "No data found".data)
      = j.dropWhile pyIsSpace ++ '\n' :: "No data found".data := by
  unfold pyStripList
  rw [dropWhile_append_of_any pyIsSpace j _ hnws]
  have hrev : (j.dropWhile pyIsSpace ++ '\n' :: "No data found".data).reverse
      = 'd' :: ("nuof atad oN".data ++ '\n' :: (j.dropWhile pyIsSpace).reverse) := by
    rw [List.reverse_append]
    rw [show ('\n' :: "No data found".data).reverse
        = 'd' :: ("nuof atad oN".data ++ ['\n']) from by decide]
    simp
  rw [hrev]
  rw [List.dropWhile_cons]
  rw [show pyIsSpace 'd' = false from by decide]
  simp only [Bool.false_eq_true, if_false]
  rw [← hrev, List.reverse_reverse]

/-- C10 counterexample: on the result string `"\na"` the code counts 0
data rows — the result is stripped before splitting — while the
claimed formula (lines of the result itself, minus one) gives 1. -/
theorem c10_count_rows_counterexample :
    claimed_count_rows "\na" = 1 ∧ count_rows "\na" = 0 :=
  ⟨rfl, rfl⟩

/-- C10 (amended): `_count_rows r` equals `max(0, lines(strip r) - 1)`
where lines are counted on the whitespace-stripped result; and for a
SELECT with columns and zero rows, `_execute_sql_safely` produces the
two-line payload `<columns>\nNo data found`, whose row count — reported
as `rows_returned` — is 1 even though no data rows were returned
(provided the joined column header contains no newline and some
non-whitespace character, as any real column list does). -/
theorem c10_count_rows_amended (r : String) (columns : List String)
    (h1 : ((joinWith "," columns).data.any fun c => !(pyIsSpace c)) = true)
    (h2 : (joinWith "," columns).data.contains '\n' = false) :
    count_rows r = claimed_count_rows (pyStrip r)
    ∧ execute_sql_result (some columns) [] 0
        = joinWith "," columns ++ "\nNo data found"
    ∧ count_rows (execute_sql_result (some columns) [] 0) = 1 := by
  refine ⟨rfl, rfl, ?_⟩
  show count_rows (joinWith "," columns ++ "\nNo data found") = 1
  unfold count_rows pySplitChar pyStrip
  rw [show (joinWith "," columns ++ "\nNo data found").data
      = (joinWith "," columns).data ++ '\n' :: "No data found".data from rfl]
  rw [pyStripList_no_data (joinWith "," columns).data h1]
  rw [show ((⟨(joinWith "," columns).data.dropWhile pyIsSpace ++ '\n' :: "No data found".data⟩ :
      String)).data
      = (joinWith "," columns).data.dropWhile pyIsSpace ++ '\n' :: "No data found".data from rfl]
  rw [pySplitCharAux_sep '\n' [] _ _ (contains_dropWhile_false pyIsSpace '\n' _ h2)]
  rw [pySplitCharAux_no_sep '\n' [] _ (by decide)]
  rfl

/-- C10 witness: for the concrete header `id,name`, the zero-row
payload is `id,name\nNo data found` and its reported row count is 1. -/
theorem c10_count_rows_witness :
    ((joinWith "," ["id", "name"]).data.any fun c => !(pyIsSpace c)) = true
    ∧ (joinWith "," ["id", "name"]).data.contains '\n' = false
    ∧ execute_sql_result (some ["id", "name"]) [] 0 = "id,name\nNo data found"
    ∧ count_rows (execute_sql_result (some ["id", "name"]) [] 0) = 1 := by
  have h := c10_count_rows_amended "x" ["id", "name"] (by decide) (by decide)
  exact ⟨by decide, by decide, by decide, h.2.2⟩

/-! ### C5: join path over a chain -/

/-- The chain graph A–B–C–D of the claim scenario. -/
def chainGraph : RelationshipGraph :=
  buildGraph
    [GraphOp.addTable "A", GraphOp.addTable "B", GraphOp.addTable "C", GraphOp.addTable "D",
     GraphOp.addRel ⟨"A", "B", "a_col", "id", "foreign_key"⟩,
     GraphOp.addRel ⟨"B", "C", "b_col", "id", "foreign_key"⟩,
     GraphOp.addRel ⟨"C", "D", "c_col", "id", "foreign_key"⟩]

/-- C5: over the chain A–B–C–D, BFS finds the path A,B,C,D, yet
`find_join_path(["A","D"])` returns the empty edge list: the pair
search only accepts a direct edge between a connected and a remaining
table, finds none for (A, D), and breaks.  Requesting all four tables
does produce the three chain edges in traversal order, confirming the
failure is specific to the multi-hop case. -/
theorem c5_join_path_chain_eval :
    chainGraph.find_shortest_path "A" "D" = ["A", "B", "C", "D"]
    ∧ chainGraph.find_join_path ["A", "D"] = []
    ∧ chainGraph.find_join_path ["A", "B", "C", "D"] =
        [⟨"A", "B", "a_col", "id", "foreign_key"⟩,
         ⟨"B", "C", "b_col", "id", "foreign_key"⟩,
         ⟨"C", "D", "c_col", "id", "foreign_key"⟩] :=
  ⟨rfl, rfl, rfl⟩

end MysqlMcp
